import Mathlib

/-!
# Verification of the GUI Agent Skill core

A shallow embedding, in Lean 4, of the core logic of the `gui_agent_skill`
repository (`core/executor.py`, `core/session_manager.py`), together with
theorems checking the repository's natural-language specification against it.

Modelling conventions:
* Python `float` values are modelled as rationals (`ℚ`); IEEE-754 rounding of
  the underlying binary floats is not modelled.
* Python `int` values are modelled as `ℤ` (lengths/counts as `ℕ`).
* Python `None`-able strings are modelled as `Option String`; Python
  truthiness of such a value (`if s:`) treats both `None` and the empty
  string as false.
* Fallible code is modelled with `Except`/`Option`; a raised `ExecutorError`
  carries the same message string the Python code builds.
* External collaborators (the adapter, the ADB state collector, the
  captioner) are out of scope by the spec; their observable behaviour enters
  the model as explicit parameters (`WorkerRun`, `PostEnv`, the
  connected-device list, ...).
-/

namespace GuiAgentSkill

/-- Python `a or b` for optional strings: `None` and `""` are falsy. -/
def pyOrStr (a b : Option String) : Option String :=
  match a with
  | none => b
  | some s => if s = "" then b else some s

/-- Python `a or b` where `a` is an optional int (`None` and `0` falsy). -/
def pyOrInt (a : Option ℤ) (b : ℤ) : ℤ :=
  match a with
  | none => b
  | some n => if n = 0 then b else n

/-- Python truthiness of a `str | None` value. -/
def strTruthy : Option String → Bool
  | none => false
  | some s => s ≠ ""

/-- Python 3 `round` on a real value: round half to even (banker's rounding).
`round(q)` with a single argument returns an integer. -/
def pyRound (q : ℚ) : ℤ :=
  if q - ⌊q⌋ < 1/2 then ⌊q⌋
  else if 1/2 < q - ⌊q⌋ then ⌊q⌋ + 1
  else if ⌊q⌋ % 2 = 0 then ⌊q⌋ else ⌊q⌋ + 1

/-! ## Coordinate Resolver (`GUIAgentExecutor._resolve_tap_coordinate`) -/

/-- The two `ExecutorError`s `_resolve_tap_coordinate` can raise. -/
inductive TapError where
  /-- "Invalid screen size. Width/height must be > 0." -/
  | invalidScreenSize : TapError
  /-- "Unsupported coord_space: {coord_space}" (carries the original space). -/
  | unsupportedSpace (coord_space : String) : TapError
deriving DecidableEq, Repr

/-- The dictionary returned by `_resolve_tap_coordinate`. -/
structure TapResolution where
  /-- `"input"`: the original `x`, `y` and `coord_space` arguments. -/
  input_x : ℚ
  input_y : ℚ
  input_coord_space : String
  /-- `"effective_coord_space"`. -/
  effective_coord_space : String
  /-- `"screen_size"`. -/
  screen_width : ℤ
  screen_height : ℤ
  /-- `"computed"`: the rounded, pre-clamp point. -/
  computed_x : ℤ
  computed_y : ℤ
  /-- `"tap"`: the clamped point actually tapped. -/
  tap_x : ℤ
  tap_y : ℤ
  /-- `"clamped"`. -/
  clamped : Bool
deriving DecidableEq, Repr

/-- The `effective_space` computed by `_resolve_tap_coordinate`: `auto` is
treated as `ratio` only when both axes are in the `[0, 1]` ratio range. -/
def effectiveSpace (x y : ℚ) (coord_space : String) : String :=
  if coord_space = "auto" then
    if 0 ≤ x ∧ x ≤ 1 ∧ 0 ≤ y ∧ y ≤ 1 then "ratio" else "pixel"
  else coord_space

/-- `max(0, min(dimension - 1, value))` as in `_resolve_tap_coordinate`. -/
def clampDim (dim v : ℤ) : ℤ := max 0 (min (dim - 1) v)

/-- The result dictionary `_resolve_tap_coordinate` builds from the raw
(pre-rounding) point: round each axis, clamp it into `[0, dimension-1]`, and
set `clamped` iff rounding-then-clamping changed either axis. -/
def mkTapResolution (x y : ℚ) (coord_space eff : String) (w h : ℤ)
    (raw_x raw_y : ℚ) : TapResolution :=
  { input_x := x
    input_y := y
    input_coord_space := coord_space
    effective_coord_space := eff
    screen_width := w
    screen_height := h
    computed_x := pyRound raw_x
    computed_y := pyRound raw_y
    tap_x := clampDim w (pyRound raw_x)
    tap_y := clampDim h (pyRound raw_y)
    clamped := (clampDim w (pyRound raw_x) ≠ pyRound raw_x) ∨
      (clampDim h (pyRound raw_y) ≠ pyRound raw_y) }

/-- `GUIAgentExecutor._resolve_tap_coordinate`. -/
def resolve_tap_coordinate (x y : ℚ) (coord_space : String)
    (screen_width screen_height : ℤ) : Except TapError TapResolution :=
  if screen_width ≤ 0 ∨ screen_height ≤ 0 then
    .error .invalidScreenSize
  else if effectiveSpace x y coord_space = "ratio" then
    .ok (mkTapResolution x y coord_space (effectiveSpace x y coord_space)
      screen_width screen_height
      (x * (screen_width - 1)) (y * (screen_height - 1)))
  else if effectiveSpace x y coord_space = "pixel" then
    .ok (mkTapResolution x y coord_space (effectiveSpace x y coord_space)
      screen_width screen_height x y)
  else
    .error (.unsupportedSpace coord_space)

/-- The space the spec's words (§4.5) select: `auto` becomes `ratio` exactly
when both coordinates lie in `[0,1]` and `pixel` otherwise; `ratio` and
`pixel` stand; anything else is unsupported. -/
def specSpace (x y : ℚ) (coord_space : String) : Option String :=
  if coord_space = "auto" then
    some (if 0 ≤ x ∧ x ≤ 1 ∧ 0 ≤ y ∧ y ≤ 1 then "ratio" else "pixel")
  else if coord_space = "ratio" ∨ coord_space = "pixel" then some coord_space
  else none

/-- The raw point of the spec's words: `ratio` maps a coordinate to
`coordinate * (dimension - 1)`, `pixel` leaves it unchanged. -/
def specRaw (sp : String) (c : ℚ) (dim : ℤ) : ℚ :=
  if sp = "ratio" then c * (dim - 1) else c

/-- Reference definition of coordinate resolution, written from the spec's
words (§4.5): fail when `screen_width` or `screen_height` is ≤ 0; resolve the
space per `specSpace` (failing on an unsupported space); map the input through
`specRaw`; round to nearest integer then clamp into `[0, dimension-1]`,
reporting whether clamping altered the value. -/
def resolve_tap_coordinate_spec (x y : ℚ) (coord_space : String)
    (screen_width screen_height : ℤ) : Except TapError TapResolution :=
  if screen_width ≤ 0 ∨ screen_height ≤ 0 then
    .error .invalidScreenSize
  else
    match specSpace x y coord_space with
    | none => .error (.unsupportedSpace coord_space)
    | some sp =>
      .ok (mkTapResolution x y coord_space sp screen_width screen_height
        (specRaw sp x screen_width) (specRaw sp y screen_height))

/-- Projection used to state facts about the `clamped` flag. -/
def tapClamped (r : Except TapError TapResolution) : Option Bool :=
  match r with
  | .ok t => some t.clamped
  | .error _ => none

/-- Projection of the tap x coordinate of a successful resolution. -/
def tapX (r : Except TapError TapResolution) : Option ℤ :=
  match r with
  | .ok t => some t.tap_x
  | .error _ => none

/-- The invariant claimed for a coordinate-resolution result on a
`w × h` screen: the tap point lies in `[0, w-1] × [0, h-1]` and `clamped`
holds iff the pre-clamp rounded (`computed`) point differs from the tap
point. An error trivially satisfies it (the claim is about successes). -/
def TapInvariant (w h : ℤ) : Except TapError TapResolution → Prop
  | .error _ => True
  | .ok res =>
    (0 ≤ res.tap_x ∧ res.tap_x ≤ w - 1 ∧ 0 ≤ res.tap_y ∧ res.tap_y ≤ h - 1) ∧
    (res.clamped = true ↔
      ¬(res.computed_x = res.tap_x ∧ res.computed_y = res.tap_y))

/-- Any `mkTapResolution` on a positive screen satisfies the invariant. -/
lemma mkTapResolution_invariant (x y : ℚ) (cs eff : String) (w h : ℤ)
    (raw_x raw_y : ℚ) (hw : 0 < w) (hh : 0 < h) :
    TapInvariant w h (.ok (mkTapResolution x y cs eff w h raw_x raw_y)) := by
  simp only [TapInvariant, mkTapResolution, clampDim]
  constructor
  · refine ⟨?_, ?_, ?_, ?_⟩ <;> omega
  · simp only [decide_eq_true_eq, not_and_or]
    constructor
    · intro hor
      rcases hor with h1 | h1
      · exact Or.inl (fun hx => h1 hx.symm)
      · exact Or.inr (fun hy => h1 hy.symm)
    · intro hor
      rcases hor with h1 | h1
      · exact Or.inl (fun hx => h1 hx.symm)
      · exact Or.inr (fun hy => h1 hy.symm)

/-- `pyRound` never rounds below the floor. -/
lemma floor_le_pyRound (q : ℚ) : ⌊q⌋ ≤ pyRound q := by
  unfold pyRound
  split_ifs <;> omega

/-- For a screen dimension `w ≥ 2`, the ratio coordinate `3/2` rounds to at
least `w`, i.e. strictly past the last column `w - 1`. -/
lemma pyRound_three_halves_ge (w : ℤ) (hw : 2 ≤ w) :
    w ≤ pyRound ((3/2 : ℚ) * ((w : ℚ) - 1)) := by
  rcases eq_or_lt_of_le hw with h2 | h3
  · -- w = 2: 3/2 * 1 = 3/2, whose floor is 1 (odd), so half rounds up to 2
    have : ((3/2 : ℚ) * ((2 : ℚ) - 1)) = 3/2 := by norm_num
    rw [← h2]
    norm_num [this, pyRound]
  · -- w ≥ 3: already the floor is ≥ w
    have hfloor : w ≤ ⌊(3/2 : ℚ) * ((w : ℚ) - 1)⌋ := by
      rw [Int.le_floor]
      have h3' : (3 : ℚ) ≤ (w : ℚ) := by exact_mod_cast h3
      nlinarith
    exact le_trans hfloor (floor_le_pyRound _)

/-- C2: every coordinate resolution on a positive screen satisfies the tap
invariant: on success the tap point lies in `[0, w-1] × [0, h-1]`, and the
`clamped` flag is true iff the pre-clamp rounded point differs from the tap
point. -/
theorem tap_resolution_invariant (x y : ℚ) (coord_space : String)
    (w h : ℤ) (hw : 0 < w) (hh : 0 < h) :
    TapInvariant w h (resolve_tap_coordinate x y coord_space w h) := by
  unfold resolve_tap_coordinate
  split_ifs with h1 h2 h3
  · trivial
  · exact mkTapResolution_invariant _ _ _ _ _ _ _ _ hw hh
  · exact mkTapResolution_invariant _ _ _ _ _ _ _ _ hw hh
  · trivial

/-- C2 witness: the invariant instantiated at `x=1.5, y=0.5, space=ratio` on
a 1080×2400 screen. -/
theorem tap_resolution_invariant_witness :
    (0 < (1080 : ℤ) ∧ 0 < (2400 : ℤ)) ∧
    TapInvariant 1080 2400 (resolve_tap_coordinate (3/2) (1/2) "ratio" 1080 2400) :=
  ⟨⟨by decide, by decide⟩,
    tap_resolution_invariant (3/2) (1/2) "ratio" 1080 2400 (by decide) (by decide)⟩

/-- C3: the source coordinate resolution coincides, on every input, with the
reference definition written from the spec's words. -/
theorem tap_resolution_matches_spec (x y : ℚ) (coord_space : String)
    (w h : ℤ) :
    resolve_tap_coordinate x y coord_space w h =
      resolve_tap_coordinate_spec x y coord_space w h := by
  unfold resolve_tap_coordinate resolve_tap_coordinate_spec
  by_cases hwh : w ≤ 0 ∨ h ≤ 0
  · simp [hwh]
  · rw [if_neg hwh, if_neg hwh]
    by_cases hauto : coord_space = "auto"
    · subst hauto
      by_cases hin : 0 ≤ x ∧ x ≤ 1 ∧ 0 ≤ y ∧ y ≤ 1 <;>
        simp [hin, effectiveSpace, specSpace, specRaw]
    · by_cases hr : coord_space = "ratio"
      · subst hr
        simp [effectiveSpace, specSpace, specRaw]
      · by_cases hp : coord_space = "pixel"
        · subst hp
          simp [effectiveSpace, specSpace, specRaw]
        · simp [effectiveSpace, specSpace, hauto, hr, hp]

/-- C8 counterexample: on a 1×1 screen (positive width and height),
`x=1.5, y=0.5, space=ratio` resolves with `clamped = false`, not `true`:
the raw point `1.5 * (1-1) = 0` needs no clamping. -/
theorem ratio_clamp_counterexample :
    tapClamped (resolve_tap_coordinate (3/2) (1/2) "ratio" 1 1) = some false ∧
    tapX (resolve_tap_coordinate (3/2) (1/2) "ratio" 1 1) = some (1 - 1) := by
  unfold resolve_tap_coordinate
  rw [if_neg (by norm_num), if_pos (by simp [effectiveSpace])]
  simp only [tapClamped, tapX, mkTapResolution, clampDim]
  norm_num [pyRound]

/-- C8 amended: for every screen with `width ≥ 2` and positive height,
resolving `x=1.5, y=0.5` with `space=ratio` yields `clamped = true` and a tap
x equal to `screen_width - 1`. (At `width = 1` the tap x still equals
`width - 1` but `clamped` is false.) -/
theorem ratio_clamp_behaviour (w h : ℤ) (hw : 2 ≤ w) (hh : 1 ≤ h) :
    tapClamped (resolve_tap_coordinate (3/2) (1/2) "ratio" w h) = some true ∧
    tapX (resolve_tap_coordinate (3/2) (1/2) "ratio" w h) = some (w - 1) := by
  have hr := pyRound_three_halves_ge w hw
  have htap : clampDim w (pyRound ((3/2 : ℚ) * ((w : ℚ) - 1))) = w - 1 := by
    unfold clampDim
    omega
  have hne : ¬ (w - 1) = pyRound ((3/2 : ℚ) * ((w : ℚ) - 1)) := by omega
  unfold resolve_tap_coordinate
  rw [if_neg (by omega), if_pos (by simp [effectiveSpace])]
  simp only [tapClamped, tapX, mkTapResolution, htap]
  constructor
  · simp only [Option.some.injEq, decide_eq_true_eq, ne_eq]
    exact Or.inl hne
  · trivial

theorem ratio_clamp_behaviour_witness :
    (2 ≤ (1080 : ℤ) ∧ 1 ≤ (2400 : ℤ)) ∧
    (tapClamped (resolve_tap_coordinate (3/2) (1/2) "ratio" 1080 2400) = some true ∧
      tapX (resolve_tap_coordinate (3/2) (1/2) "ratio" 1080 2400) = some (1080 - 1)) :=
  ⟨⟨by decide, by decide⟩, ratio_clamp_behaviour 1080 2400 (by decide) (by decide)⟩

/-! ## Device Selector (`_select_device`, `_ensure_device_connected`) -/

/-- The structured content of the `ExecutorError`s raised during device
selection. -/
inductive DeviceError where
  /-- `_NO_DEVICE_HINT`: raised when no device at all is connected. -/
  | noDevices : DeviceError
  /-- "Device `id` is not connected or not authorized. ..." -/
  | notConnected (device_id : String) (available : List String) : DeviceError
  /-- "Multiple devices found: ... Use --device-id to choose one." -/
  | multipleDevices (devices : List String) : DeviceError
deriving DecidableEq, Repr

/-- The exact message string the source attaches to each device error. -/
def deviceErrorMessage : DeviceError → String
  | .noDevices =>
    "No ADB devices found. Connect a phone/emulator, enable USB debugging, " ++
      "and approve the device authorization prompt. You can run `adb devices` to verify."
  | .notConnected d available =>
    "Device `" ++ d ++ "` is not connected or not authorized. Available devices: " ++
      String.intercalate ", " available ++
      ". Ensure USB debugging is enabled and debugging authorization is approved on the device."
  | .multipleDevices devices =>
    "Multiple devices found: " ++ String.intercalate ", " devices ++
      ". Use --device-id to choose one."

/-- `GUIAgentExecutor._ensure_device_connected`, with the connected-device
list (the external collector's answer) passed explicitly. -/
def ensure_device_connected (devices : List String) (device_id : String) :
    Except DeviceError Unit :=
  if devices = [] then .error .noDevices
  else if ¬ device_id ∈ devices then .error (.notConnected device_id devices)
  else .ok ()

/-- `GUIAgentExecutor._select_device`: explicit id, else configured default,
else the sole connected device. -/
def select_device (device_id : Option String) (default_device_id : Option String)
    (devices : List String) : Except DeviceError String :=
  if strTruthy device_id then
    match ensure_device_connected devices (device_id.getD "") with
    | .error e => .error e
    | .ok _ => .ok (device_id.getD "")
  else if strTruthy default_device_id then
    match ensure_device_connected devices (default_device_id.getD "") with
    | .error e => .error e
    | .ok _ => .ok (default_device_id.getD "")
  else if devices = [] then .error .noDevices
  else if 1 < devices.length then .error (.multipleDevices devices)
  else .ok (devices.headD "")

/-- The id device selection will verify, respecting the fixed precedence
explicit id > configured default (none when neither is given). -/
def chosenId (device_id default_device_id : Option String) : Option String :=
  if strTruthy device_id then device_id
  else if strTruthy default_device_id then default_device_id
  else none

/-- Device selection as the amended claim words it: with an explicit or
default id, fail with "no devices" when the connected list is empty, return
the id when connected, and fail with "not connected" otherwise; with no id,
fail with "no devices" on an empty list, with an ambiguity error listing the
candidates when more than one device is connected, and return the sole
device otherwise. -/
def select_device_amended (device_id : Option String)
    (default_device_id : Option String) (devices : List String) :
    Except DeviceError String :=
  match chosenId device_id default_device_id with
  | some d =>
    if devices = [] then .error .noDevices
    else if d ∈ devices then .ok d
    else .error (.notConnected d devices)
  | none =>
    if devices = [] then .error .noDevices
    else if 1 < devices.length then .error (.multipleDevices devices)
    else .ok (devices.headD "")

/-- C4 counterexample: with an explicit id `"X"` and an empty connected list,
selection fails with the "no devices" error, not with the "not connected"
error the claim prescribes for an explicit id that is absent from the list. -/
theorem select_device_counterexample :
    select_device (some "X") none [] = .error .noDevices ∧
    (DeviceError.noDevices ≠ DeviceError.notConnected "X" []) := by
  constructor
  · rfl
  · decide

/-- C4 amended: device selection follows the precedence explicit id >
configured default > sole auto-detected, where a given (explicit or default)
id fails with "no devices" on an empty connected list, with "not connected"
when absent from a non-empty list, and is returned otherwise; with no id the
call fails with "no devices" on an empty list, with an ambiguity error
listing the candidates when more than one device is connected, and returns
the sole device otherwise. -/
theorem select_device_behaviour (device_id default_device_id : Option String)
    (devices : List String) :
    select_device device_id default_device_id devices =
      select_device_amended device_id default_device_id devices := by
  unfold select_device select_device_amended chosenId ensure_device_connected
  by_cases h1 : strTruthy device_id
  · cases device_id with
    | none => simp [strTruthy] at h1
    | some d =>
      simp only [if_pos h1]
      by_cases he : devices = []
      · simp [he]
      · by_cases hm : d ∈ devices <;> simp_all
  · simp only [if_neg h1]
    by_cases h2 : strTruthy default_device_id
    · cases default_device_id with
      | none => simp [strTruthy] at h2
      | some d =>
        simp only [if_pos h2]
        by_cases he : devices = []
        · simp [he]
        · by_cases hm : d ∈ devices <;> simp_all
    · simp [h2]

/-! ## Result Normalizer: next-action derivation (`_determine_next_action`) -/

/-- An adapter result payload as `_determine_next_action` and the session
code read it: either not a mapping at all, or a mapping from which only the
keys `action_type`, `type`, `status` and `state` are consulted (each modelled
as `result.get(key)`, an optional string; non-string values never compare
equal to the string literals the source tests against). -/
inductive AdapterPayload where
  | notDict : AdapterPayload
  | dict (action_type type_field status state : Option String) : AdapterPayload
deriving DecidableEq, Repr

/-- `GUIAgentExecutor._determine_next_action`: `action_type or type` equal to
`INFO_ACTION_NEEDS_REPLY` means a reply is needed; else `status or state` in
`(completed, done, success)` means complete; everything else (including a
non-mapping payload) continues. -/
def determine_next_action : AdapterPayload → String
  | .notDict => "continue"
  | .dict action_type type_field status state =>
    if pyOrStr action_type type_field = some "INFO_ACTION_NEEDS_REPLY" then
      "needs_reply"
    else if pyOrStr status state = some "completed" ∨
        pyOrStr status state = some "done" ∨
        pyOrStr status state = some "success" then
      "complete"
    else "continue"

/-- The claim's "action-type field signals needs-reply" condition. -/
def signalsNeedsReply : AdapterPayload → Bool
  | .notDict => false
  | .dict action_type type_field _ _ =>
    pyOrStr action_type type_field = some "INFO_ACTION_NEEDS_REPLY"

/-- The claim's "status field is exactly one of completed/done/success". -/
def statusSignalsComplete : AdapterPayload → Bool
  | .notDict => false
  | .dict _ _ status state =>
    (pyOrStr status state = some "completed") ||
      (pyOrStr status state = some "done") ||
      (pyOrStr status state = some "success")

/-- C7: `next_action` is `needs_reply` when the payload's action-type field
signals needs-reply; `complete` when (the former does not apply and) its
status field is exactly one of completed/done/success; and `continue` in
every other case, including non-mapping payloads. The two match rules apply
in this order, as the spec lists them. -/
theorem next_action_rules (p : AdapterPayload) :
    (signalsNeedsReply p = true → determine_next_action p = "needs_reply") ∧
    (signalsNeedsReply p = false → statusSignalsComplete p = true →
      determine_next_action p = "complete") ∧
    (signalsNeedsReply p = false → statusSignalsComplete p = false →
      determine_next_action p = "continue") := by
  cases p with
  | notDict => simp [signalsNeedsReply, statusSignalsComplete, determine_next_action]
  | dict a t s st =>
    refine ⟨fun h1 => ?_, fun h1 h2 => ?_, fun h1 h2 => ?_⟩
    · have h1' : pyOrStr a t = some "INFO_ACTION_NEEDS_REPLY" := by
        simpa [signalsNeedsReply] using h1
      simp [determine_next_action, h1']
    · have h1' : ¬ pyOrStr a t = some "INFO_ACTION_NEEDS_REPLY" := by
        simpa [signalsNeedsReply] using h1
      have h2' : pyOrStr s st = some "completed" ∨
          pyOrStr s st = some "done" ∨ pyOrStr s st = some "success" := by
        have hb := h2
        simp only [statusSignalsComplete, Bool.or_eq_true,
          decide_eq_true_eq] at hb
        tauto
      simp only [determine_next_action]
      rw [if_neg h1', if_pos h2']
    · have h1' : ¬ pyOrStr a t = some "INFO_ACTION_NEEDS_REPLY" := by
        simpa [signalsNeedsReply] using h1
      have h2' : ¬ (pyOrStr s st = some "completed" ∨
          pyOrStr s st = some "done" ∨ pyOrStr s st = some "success") := by
        have hb := h2
        simp only [statusSignalsComplete, Bool.or_eq_false_iff,
          decide_eq_false_iff_not] at hb
        tauto
      simp only [determine_next_action]
      rw [if_neg h1', if_neg h2']

theorem next_action_rules_witness :
    determine_next_action
        (.dict (some "INFO_ACTION_NEEDS_REPLY") none (some "completed") none) =
      "needs_reply" ∧
    determine_next_action (.dict none (some "") (some "done") none) = "complete" ∧
    determine_next_action .notDict = "continue" :=
  ⟨(next_action_rules
      (.dict (some "INFO_ACTION_NEEDS_REPLY") none (some "completed") none)).1
      (by decide),
    (next_action_rules (.dict none (some "") (some "done") none)).2.1
      (by decide) (by decide),
    (next_action_rules .notDict).2.2 (by decide) (by decide)⟩

/-! ## Session Store (`core/session_manager.py`) -/

/-- One entry of a session's `history` list: `{step, timestamp, result}`. -/
structure HistoryEntry where
  step : ℤ
  timestamp : ℚ
  result : AdapterPayload
deriving DecidableEq, Repr

/-- The `Session` dataclass. `last_result` defaults to the empty dict. -/
structure Session where
  session_id : String
  device_id : String
  provider : String
  task : String
  created_at : ℚ
  updated_at : ℚ
  status : String := "active"
  step_count : ℤ := 0
  last_result : AdapterPayload := .dict none none none none
  history : List HistoryEntry := []
deriving DecidableEq, Repr

/-- Python-dict lookup on an association list (keys are unique in a dict;
`dictGet` returns the first match). -/
def dictGet {α : Type} (k : String) : List (String × α) → Option α
  | [] => none
  | (k', v) :: rest => if k' = k then some v else dictGet k rest

/-- Python-dict insertion: replace the existing entry in place, else append. -/
def dictSet {α : Type} (k : String) (v : α) : List (String × α) → List (String × α)
  | [] => [(k, v)]
  | (k', v') :: rest => if k' = k then (k, v) :: rest else (k', v') :: dictSet k v rest

/-- The `SessionManager` state: the in-memory `_sessions` dict and the
directory of per-session JSON files written by `_save_session`. -/
structure SMState where
  sessions : List (String × Session)
  disk : List (String × Session)
  expire_seconds : ℚ
deriving DecidableEq, Repr

/-- The combined effect of mutating the session object stored under `key`
(Python mutates it in place inside `_sessions`) and of `_save_session`,
which writes the record to the file named after `session.session_id`. -/
def mutateSession (st : SMState) (key : String) (s : Session) : SMState :=
  { st with
    sessions := dictSet key s st.sessions
    disk := dictSet s.session_id s st.disk }

/-- `SessionManager.create_session`; the fresh uuid and `time.time()` value
enter as parameters. -/
def create_session (st : SMState) (session_id : String) (now : ℚ)
    (device_id provider task : String) : SMState × Session :=
  let session : Session :=
    { session_id := session_id, device_id := device_id, provider := provider,
      task := task, created_at := now, updated_at := now }
  (mutateSession st session_id session, session)

/-- The lazy-expiry flip `session.status = "expired"`. -/
def expireFlip (session : Session) : Session := { session with status := "expired" }

/-- `SessionManager.get_session`: `None` for an unknown id; a session older
than the TTL is flipped to `expired` and saved before being returned. -/
def get_session (st : SMState) (session_id : String) (now : ℚ) :
    SMState × Option Session :=
  match dictGet session_id st.sessions with
  | none => (st, none)
  | some session =>
    if st.expire_seconds < now - session.updated_at then
      (mutateSession st session_id (expireFlip session), some (expireFlip session))
    else (st, some session)

/-- The in-place advance `update_session` performs on a found session:
refresh `updated_at`, bump `step_count`, replace `last_result`, append the
`{step, timestamp, result}` history entry, and overwrite `status` only when
a truthy status is supplied. -/
def advanceSession (session : Session) (result : AdapterPayload)
    (status : Option String) (now : ℚ) : Session :=
  { session with
    updated_at := now
    step_count := session.step_count + 1
    last_result := result
    history := session.history ++
      [{ step := session.step_count + 1, timestamp := now, result := result }]
    status := if strTruthy status then status.getD "" else session.status }

/-- `SessionManager.update_session`. -/
def update_session (st : SMState) (session_id : String) (result : AdapterPayload)
    (status : Option String) (now : ℚ) : SMState × Option Session :=
  match dictGet session_id st.sessions with
  | none => (st, none)
  | some session =>
    (mutateSession st session_id (advanceSession session result status now),
      some (advanceSession session result status now))

/-- `SessionManager.complete_session`. -/
def complete_session (st : SMState) (session_id : String) (now : ℚ) :
    SMState × Option Session :=
  update_session st session_id (.dict none none none none) (some "completed") now

/-- The loop body of `SessionManager.list_active_sessions`: iterate the dict
entries; a stale active session is flipped to `expired` and saved, a fresh
active one is collected. -/
def list_active_go (expire now : ℚ) :
    List (String × Session) → SMState → List Session → SMState × List Session
  | [], st, acc => (st, acc)
  | (key, session) :: rest, st, acc =>
    if session.status = "active" then
      if expire < now - session.updated_at then
        list_active_go expire now rest (mutateSession st key (expireFlip session)) acc
      else
        list_active_go expire now rest st (acc ++ [session])
    else list_active_go expire now rest st acc

/-- `SessionManager.list_active_sessions`. -/
def list_active_sessions (st : SMState) (now : ℚ) : SMState × List Session :=
  list_active_go st.expire_seconds now st.sessions st []

/-- Python `max(sessions, key=lambda s: s.updated_at)`: the first element
with the greatest `updated_at` (later elements replace only when strictly
greater). -/
def latestBy : List Session → Option Session
  | [] => none
  | s :: rest =>
    some (rest.foldl (fun best cur =>
      if best.updated_at < cur.updated_at then cur else best) s)

/-- `SessionManager.get_latest_session`. -/
def get_latest_session (st : SMState) (device_id : Option String) (now : ℚ) :
    SMState × Option Session :=
  match list_active_sessions st now with
  | (st', active) =>
    let filtered :=
      if strTruthy device_id then
        active.filter (fun s => s.device_id = device_id.getD "")
      else active
    (st', latestBy filtered)

/-- `SessionManager.cleanup_expired`: remove every stale session from memory
and disk, returning how many were removed. -/
def cleanup_expired (st : SMState) (now : ℚ) : SMState × ℕ :=
  let expired_ids :=
    (st.sessions.filter (fun kv => st.expire_seconds < now - kv.2.updated_at)).map
      Prod.fst
  ({ st with
      sessions := st.sessions.filter (fun kv => ¬ kv.1 ∈ expired_ids)
      disk := st.disk.filter (fun kv => ¬ kv.1 ∈ expired_ids) },
    expired_ids.length)

/-- `SessionManager.delete_session`. -/
def delete_session (st : SMState) (session_id : String) : SMState × Bool :=
  if dictGet session_id st.sessions = none then (st, false)
  else
    ({ st with
        sessions := st.sessions.filter (fun kv => ¬ kv.1 = session_id)
        disk := st.disk.filter (fun kv => ¬ kv.1 = session_id) },
      true)

lemma dictGet_dictSet_self {α : Type} (k : String) (v : α)
    (m : List (String × α)) : dictGet k (dictSet k v m) = some v := by
  induction m with
  | nil => simp [dictGet, dictSet]
  | cons kv rest ih =>
    by_cases h : kv.1 = k
    · simp [dictGet, dictSet, h]
    · simpa [dictGet, dictSet, h] using ih

lemma dictGet_dictSet_ne {α : Type} (k k' : String) (v : α)
    (m : List (String × α)) (h : ¬ k' = k) :
    dictGet k' (dictSet k v m) = dictGet k' m := by
  have h' : ¬ k = k' := fun hh => h hh.symm
  induction m with
  | nil => simp [dictGet, dictSet, h']
  | cons kv rest ih =>
    by_cases hk : kv.1 = k
    · subst hk
      simp [dictGet, dictSet, h']
    · by_cases hk' : kv.1 = k' <;> simp [dictGet, dictSet, hk, hk', ih, h]

/-! ## Subprocess Registry and Timeout Executor (`core/executor.py`) -/

/-- The tracked-subprocess set, each handle reduced to its liveness
(`proc.poll() is None`). -/
def collect_live_subprocesses (reg : List Bool) : List Bool × List Bool :=
  (reg.filter (· = true), reg.filter (· = true))

/-- `cleanup_tracked_subprocesses`: collect the live handles (pruning dead
ones), terminate every live handle gracefully, wait up to the grace period,
force-kill survivors, and return how many handles were live at the start.
Termination is modelled as effective: after the final pruning pass the
registry holds no live handles. -/
def cleanup_tracked_subprocesses (reg : List Bool) : ℕ × List Bool :=
  match collect_live_subprocesses reg with
  | (live, reg1) =>
    if live = [] then (0, reg1)
    else (live.length, [])

/-- What the worker body (`func()`, i.e. the adapter invocation) would do:
return a payload or raise. The defensive "failed without returning a result"
branch of `_run_with_timeout` is unreachable under this total model. -/
inductive WorkerOutcome where
  | value (r : AdapterPayload) : WorkerOutcome
  | raises (msg : String) : WorkerOutcome
deriving DecidableEq, Repr

/-- One worker run: when (in seconds from the start) the body finishes, if
ever, and what it produces. -/
structure WorkerRun where
  finish_time : Option ℚ
  outcome : WorkerOutcome
deriving DecidableEq, Repr

/-- The three ways `_run_with_timeout` can end: the worker's own result, the
worker's own (or the executor's argument-validation) exception, or an
`OperationTimeoutError` carrying the reclaimed-subprocess count. -/
inductive RunOutcome where
  | success (r : AdapterPayload) : RunOutcome
  | failure (msg : String) : RunOutcome
  | timeout (msg : String) (terminated : ℕ) : RunOutcome
deriving DecidableEq, Repr

/-- The label of a run outcome; each call reports exactly one of these. -/
def outcomeKind : RunOutcome → String
  | .success _ => "success"
  | .failure _ => "failure"
  | .timeout _ _ => "timeout"

structure RunResult where
  registry : List Bool
  outcome : RunOutcome
deriving DecidableEq, Repr

/-- `worker.join(timeout_sec); worker.is_alive()`: the worker finished
within the deadline iff its finish time exists and is ≤ the timeout. -/
def workerFinishedInTime (w : WorkerRun) (t : ℤ) : Bool :=
  match w.finish_time with
  | some ft => ft ≤ (t : ℚ)
  | none => false

/-- The timeout branch of `_run_with_timeout`: run the registry cleanup and
raise `OperationTimeoutError` carrying the reclaimed count. -/
def run_timeout_result (reg : List Bool) (t : ℤ) (operation_name : String) :
    RunResult :=
  ⟨(cleanup_tracked_subprocesses reg).2,
    .timeout (operation_name ++ " timed out after " ++ toString t ++ " seconds.")
      (cleanup_tracked_subprocesses reg).1⟩

/-- `GUIAgentExecutor._run_with_timeout`. With no timeout the operation runs
synchronously (a never-returning synchronous call never produces a result
and is outside the model); a non-positive timeout fails immediately; else
the worker is joined against the deadline, and on expiry the tracked
subprocesses are cleaned up and a timeout error is raised — whatever the
worker later produces is discarded. -/
def run_with_timeout (reg : List Bool) (timeout_sec : Option ℤ)
    (operation_name : String) (w : WorkerRun) : RunResult :=
  match timeout_sec with
  | none =>
    match w.outcome with
    | .value r => ⟨reg, .success r⟩
    | .raises m => ⟨reg, .failure m⟩
  | some t =>
    if t ≤ 0 then ⟨reg, .failure "timeout_sec must be greater than 0."⟩
    else if workerFinishedInTime w t then
      match w.outcome with
      | .value r => ⟨reg, .success r⟩
      | .raises m => ⟨reg, .failure m⟩
    else run_timeout_result reg t operation_name

/-- The claim's premise: the worker does not finish within the deadline. -/
def missesDeadline (w : WorkerRun) (t : ℤ) : Prop :=
  ∀ ft, w.finish_time = some ft → (t : ℚ) < ft

/-! ## Executor entry points (`execute_task`, `continue_session`) -/

/-- `GUIAgentExecutor._TAP_ONLY_HINT`. -/
def TAP_ONLY_HINT : String :=
  "Tap-only mode is enabled. `execute`/`continue` are disabled because no model provider is configured. " ++
    "Use `tap`/`click` for coordinate control, or run `python install.py --provider <name>` to enable planner mode."

/-- The outward-facing result dictionary of a public executor operation.
Keys that a given code path does not set are modelled as `none`/`[]`. -/
structure ExecResult where
  success : Bool
  message : String
  session_id : Option String := none
  error : Option String := none
  task : Option String := none
  provider : Option String := none
  device_id : Option String := none
  step_count : Option ℤ := none
  caption : Option String := none
  screenshot_path : Option String := none
  next_action : Option String := none
  current_app : Option String := none
  timed_out : Option Bool := none
  terminated_subprocesses : Option ℕ := none
  timeout_sec : Option ℤ := none
  session_mode : Option String := none
  session_persisted : Option Bool := none
  continuation_supported : Option Bool := none
  allowed_commands : List String := []
  raw_result : Option AdapterPayload := none
deriving DecidableEq, Repr

/-- `_tap_only_error_result`. -/
def tap_only_error_result (command : String) : ExecResult :=
  { success := false
    error := some "tap_only_mode_enabled"
    message := "`" ++ command ++ "` is unavailable in tap-only mode. " ++ TAP_ONLY_HINT
    session_mode := some "direct_coordinate_only"
    session_persisted := some false
    continuation_supported := some false
    allowed_commands := ["tap", "click", "status", "devices"] }

/-- `_generate_message`. -/
def generate_message (next_action caption : String)
    (continuation_supported : Bool) : String :=
  (if next_action = "complete" then "Task completed. " ++ caption
    else if next_action = "needs_reply" then
      "User reply required. Current state: " ++ caption
    else "Task in progress. Current state: " ++ caption) ++
  (if ¬ continuation_supported ∧ ¬ next_action = "complete" then
    " Stateless mode is active; run execute --stateless for the next independent call."
  else "")

/-- What the external collaborators contribute to `_process_result`: the
post-action device state (`current_app`, screenshot path written) and the
captioner's answer when captioning is enabled and succeeds. -/
structure PostEnv where
  current_app : Option String := none
  caption : Option String := none
  fallback_caption : String := ""
  screenshot_path : Option String := none
deriving DecidableEq, Repr

/-- The caption `_process_result` settles on: the captioner's answer when
truthy, else the deterministic fallback caption. -/
def resolveCaption (env : PostEnv) : String :=
  match env.caption with
  | some c => if c = "" then env.fallback_caption else c
  | none => env.fallback_caption

/-- The success record `_process_result` returns. -/
def process_result_output (session_id provider device_id : String)
    (result : AdapterPayload) (task : String) (persist_session : Bool)
    (env : PostEnv) (step_count : ℤ) : ExecResult :=
  { success := true
    session_id := some session_id
    task := some task
    provider := some provider
    device_id := some device_id
    step_count := some step_count
    caption := some (resolveCaption env)
    screenshot_path := env.screenshot_path
    next_action := some (determine_next_action result)
    current_app := env.current_app
    message := generate_message (determine_next_action result)
      (resolveCaption env) persist_session
    session_mode := some (if persist_session then "stateful" else "stateless")
    session_persisted := some persist_session
    continuation_supported := some persist_session
    timed_out := some false
    raw_result := some result }

/-- `GUIAgentExecutor._process_result`: derive `next_action`, and for a
persisted session advance the Session Store with status `completed` when the
action is complete and `active` otherwise, reporting the new `step_count`
(or `1` when the session is unknown or the call is stateless). -/
def process_result (st : SMState) (session_id provider device_id : String)
    (result : AdapterPayload) (task : String) (persist_session : Bool)
    (now : ℚ) (env : PostEnv) : SMState × ExecResult :=
  if persist_session then
    match update_session st session_id result
        (some (if determine_next_action result = "complete" then "completed" else "active"))
        now with
    | (st', some s) =>
      (st', process_result_output session_id provider device_id result task
        true env s.step_count)
    | (st', none) =>
      (st', process_result_output session_id provider device_id result task
        true env 1)
  else
    (st, process_result_output session_id provider device_id result task
      false env 1)

/-- The executor's configuration and external-collaborator answers that
`execute_task`/`continue_session` consult. -/
structure ExecEnv where
  tap_only_mode : Bool := false
  default_provider : Option String := none
  default_operation_timeout_sec : Option ℤ := none
  default_max_steps : ℤ := 20
  default_device_id : Option String := none
  devices : List String := []
  validate_provider_ok : Bool := true
  validate_provider_msg : String := ""
deriving DecidableEq, Repr

/-- Python `str.isspace` on the ASCII whitespace characters (the wider
Unicode whitespace set is not modelled). -/
def isPySpace (c : Char) : Bool :=
  c = ' ' ∨ c = '\t' ∨ c = '\n' ∨ c = '\r'

/-- Python `str.strip()`: drop leading and trailing whitespace. -/
def pyStrip (s : String) : String :=
  ⟨((s.data.dropWhile isPySpace).reverse.dropWhile isPySpace).reverse⟩

/-- `provider = provider or default_provider; provider = str(provider or "").strip()`. -/
def resolved_provider (env : ExecEnv) (provider : Option String) : String :=
  pyStrip ((pyOrStr provider env.default_provider).getD "")

/-- `timeout_sec if timeout_sec is not None else config default`. -/
def resolved_timeout (env : ExecEnv) (timeout_sec : Option ℤ) : Option ℤ :=
  match timeout_sec with
  | some t => some t
  | none => env.default_operation_timeout_sec

/-- `max_steps or default` (capped at 4 for stateless calls). -/
def resolved_max_steps (env : ExecEnv) (max_steps : Option ℤ)
    (stateless : Bool) : ℤ :=
  if stateless then pyOrInt max_steps (min env.default_max_steps 4)
  else pyOrInt max_steps env.default_max_steps

/-- A public executor call's complete effect: the session store, the
subprocess registry, and the returned result. -/
structure ExecOutput where
  state : SMState
  registry : List Bool
  result : ExecResult
deriving DecidableEq, Repr

/-- The error record `execute_task` builds in its `except` clause. -/
def execErrorResult (session_id errmsg : String) (timed_out : Bool)
    (terminated : Option ℕ) (timeout_sec : Option ℤ)
    (stateless : Bool) : ExecResult :=
  { success := false
    session_id := some session_id
    error := some errmsg
    message := "Task execution failed: " ++ errmsg
    timed_out := some timed_out
    terminated_subprocesses := terminated
    timeout_sec := timeout_sec
    session_mode := if stateless then some "stateless" else none
    session_persisted := if stateless then some false else none
    continuation_supported := if stateless then some false else none }

/-- The adapter invocation of `execute_task` under `_run_with_timeout`,
followed by result processing; the try/except converts a timeout or any
other exception into an error record carrying the session id. -/
def execute_run (env : ExecEnv) (st1 : SMState) (reg : List Bool)
    (session_id provider dev task : String) (timeout_sec : Option ℤ)
    (stateless : Bool) (w : WorkerRun) (post : PostEnv) (now2 : ℚ) :
    ExecOutput :=
  match (run_with_timeout reg (resolved_timeout env timeout_sec) "execute" w).outcome with
  | .timeout msg cleaned =>
    ⟨st1, (run_with_timeout reg (resolved_timeout env timeout_sec) "execute" w).registry,
      execErrorResult session_id msg true (some cleaned)
        (resolved_timeout env timeout_sec) stateless⟩
  | .failure msg =>
    ⟨st1, (run_with_timeout reg (resolved_timeout env timeout_sec) "execute" w).registry,
      execErrorResult session_id msg false none
        (resolved_timeout env timeout_sec) stateless⟩
  | .success r =>
    ⟨(process_result st1 session_id provider dev r task (!stateless) now2 post).1,
      (run_with_timeout reg (resolved_timeout env timeout_sec) "execute" w).registry,
      (process_result st1 session_id provider dev r task (!stateless) now2 post).2⟩

/-- `GUIAgentExecutor.execute_task`. The guarded prompt and the stateless
extra-info dictionary are forwarded only to the external adapter (whose
behaviour is `w`) and do not appear among the modelled outputs. `gen_id` is
the fresh `uuid4` prefix, `now` the creation time, `now2` the
session-update time. -/
def execute_task (env : ExecEnv) (st : SMState) (reg : List Bool)
    (task : String) (provider : Option String) (device_id : Option String)
    (max_steps : Option ℤ) (timeout_sec : Option ℤ) (stateless : Bool)
    (gen_id : String) (now : ℚ) (w : WorkerRun) (post : PostEnv) (now2 : ℚ) :
    ExecOutput :=
  if env.tap_only_mode then ⟨st, reg, tap_only_error_result "execute"⟩
  else if resolved_provider env provider = "" then
    ⟨st, reg, { success := false,
                error := some "No provider configured",
                message := "No provider configured for execute. Set --provider or configure default_provider. " ++
                  "If you only need coordinate control, use `tap`/`click`." }⟩
  else if resolved_max_steps env max_steps stateless ≤ 0 then
    ⟨st, reg, { success := false,
                error := some "Invalid max_steps: must be > 0",
                message := "Invalid max_steps: must be > 0" }⟩
  else if ¬ env.validate_provider_ok then
    ⟨st, reg, { success := false,
                error := some env.validate_provider_msg,
                message := "Provider validation failed: " ++ env.validate_provider_msg }⟩
  else
    match select_device device_id env.default_device_id env.devices with
    | .error e =>
      ⟨st, reg, { success := false,
                  error := some (deviceErrorMessage e),
                  message := deviceErrorMessage e }⟩
    | .ok dev =>
      if stateless then
        execute_run env st reg gen_id (resolved_provider env provider) dev task
          timeout_sec true w post now2
      else
        execute_run env
          (create_session st gen_id now dev (resolved_provider env provider) task).1
          reg gen_id (resolved_provider env provider) dev task
          timeout_sec false w post now2

/-- The error record `continue_session` builds in its `except` clause. -/
def contErrorResult (session_id errmsg : String) (timed_out : Bool)
    (terminated : Option ℕ) (timeout_sec : Option ℤ) : ExecResult :=
  { success := false
    session_id := some session_id
    error := some errmsg
    message := "Continue task failed: " ++ errmsg
    timed_out := some timed_out
    terminated_subprocesses := terminated
    timeout_sec := timeout_sec }

/-- The tail of `continue_session` once a session has been fetched: the
active-status gate, the max-steps gate, the in-`try` device connectivity
check, the adapter call under the timeout, and result processing. The
adapter-owned continuation token recovered from `last_result` is forwarded
only to the external adapter. -/
def continue_with (env : ExecEnv) (st : SMState) (reg : List Bool)
    (session : Session) (task : Option String) (max_steps : Option ℤ)
    (timeout_sec : Option ℤ) (w : WorkerRun) (post : PostEnv) (now2 : ℚ) :
    ExecOutput :=
  if ¬ session.status = "active" then
    ⟨st, reg, { success := false,
                error := some ("Session is " ++ session.status),
                message := "Cannot continue session: status is " ++ session.status ++ "." }⟩
  else if pyOrInt max_steps env.default_max_steps ≤ 0 then
    ⟨st, reg, { success := false,
                session_id := some session.session_id,
                error := some "Invalid max_steps: must be > 0",
                message := "Invalid max_steps: must be > 0" }⟩
  else
    match ensure_device_connected env.devices session.device_id with
    | .error e =>
      ⟨st, reg, contErrorResult session.session_id (deviceErrorMessage e) false
        none (resolved_timeout env timeout_sec)⟩
    | .ok _ =>
      match (run_with_timeout reg (resolved_timeout env timeout_sec) "continue" w).outcome with
      | .timeout msg cleaned =>
        ⟨st, (run_with_timeout reg (resolved_timeout env timeout_sec) "continue" w).registry,
          contErrorResult session.session_id msg true (some cleaned)
            (resolved_timeout env timeout_sec)⟩
      | .failure msg =>
        ⟨st, (run_with_timeout reg (resolved_timeout env timeout_sec) "continue" w).registry,
          contErrorResult session.session_id msg false none
            (resolved_timeout env timeout_sec)⟩
      | .success r =>
        ⟨(process_result st session.session_id session.provider
            session.device_id r ((pyOrStr task (some session.task)).getD session.task)
            true now2 post).1,
          (run_with_timeout reg (resolved_timeout env timeout_sec) "continue" w).registry,
          (process_result st session.session_id session.provider
            session.device_id r ((pyOrStr task (some session.task)).getD session.task)
            true now2 post).2⟩

/-- Dispatch on the result of the session fetch (`get_latest_session` or
`get_session`): hand the not-found record back, or continue the fetched
session against the post-fetch store. -/
def continue_fetch (env : ExecEnv) (reg : List Bool)
    (fetched : SMState × Option Session) (notFoundRes : ExecResult)
    (task : Option String) (max_steps timeout_sec : Option ℤ) (w : WorkerRun)
    (post : PostEnv) (now2 : ℚ) : ExecOutput :=
  match fetched.2 with
  | none => ⟨fetched.1, reg, notFoundRes⟩
  | some session =>
    continue_with env fetched.1 reg session task max_steps timeout_sec w post now2

/-- `GUIAgentExecutor.continue_session`. The user reply is forwarded only to
the external adapter. -/
def continue_session (env : ExecEnv) (st : SMState) (reg : List Bool)
    (session_id : Option String) (task : Option String)
    (device_id : Option String) (max_steps : Option ℤ)
    (timeout_sec : Option ℤ) (now : ℚ) (w : WorkerRun) (post : PostEnv)
    (now2 : ℚ) : ExecOutput :=
  if env.tap_only_mode then ⟨st, reg, tap_only_error_result "continue"⟩
  else
    match session_id with
    | none =>
      continue_fetch env reg (get_latest_session st device_id now)
        { success := false,
          error := some "No active session found",
          message := "No active session to continue. Start a new task first." }
        task max_steps timeout_sec w post now2
    | some sid =>
      continue_fetch env reg (get_session st sid now)
        { success := false,
          error := some ("Session not found: " ++ sid),
          message := "Session " ++ sid ++ " not found or expired." }
        task max_steps timeout_sec w post now2

/-! ## Claim theorems: Timeout Executor and Session Store -/

/-- C1: when a positive timeout expires before the worker finishes, the
registry cleanup is invoked (the resulting registry is the post-cleanup one),
the call fails with a timeout error carrying exactly the number of processes
that cleanup reclaimed, and the reported outcome is the single kind
`timeout` (so neither the worker's own success nor its failure is reported:
since the theorem holds for every worker outcome, whatever the worker
produces after the deadline is discarded). -/
theorem timeout_reports_cleanup (reg : List Bool) (t : ℤ)
    (operation_name : String) (w : WorkerRun)
    (ht : 0 < t) (hm : missesDeadline w t) :
    (run_with_timeout reg (some t) operation_name w).outcome =
      .timeout (operation_name ++ " timed out after " ++ toString t ++ " seconds.")
        (cleanup_tracked_subprocesses reg).1 ∧
    (run_with_timeout reg (some t) operation_name w).registry =
      (cleanup_tracked_subprocesses reg).2 ∧
    outcomeKind (run_with_timeout reg (some t) operation_name w).outcome =
      "timeout" := by
  have hfin : workerFinishedInTime w t = false := by
    unfold workerFinishedInTime
    cases hft : w.finish_time with
    | none => rfl
    | some ft =>
      have hlt := hm ft hft
      simp only [decide_eq_false_iff_not]
      exact not_le.mpr hlt
  simp only [run_with_timeout]
  rw [if_neg (by omega), if_neg (by simp [hfin])]
  exact ⟨rfl, rfl, rfl⟩

theorem timeout_reports_cleanup_witness :
    (run_with_timeout [true, true, false] (some 5) "execute"
        ⟨none, .raises "boom"⟩).outcome =
      .timeout ("execute" ++ " timed out after " ++ toString (5 : ℤ) ++ " seconds.")
        (cleanup_tracked_subprocesses [true, true, false]).1 ∧
    (run_with_timeout [true, true, false] (some 5) "execute"
        ⟨none, .raises "boom"⟩).registry =
      (cleanup_tracked_subprocesses [true, true, false]).2 ∧
    outcomeKind (run_with_timeout [true, true, false] (some 5) "execute"
        ⟨none, .raises "boom"⟩).outcome = "timeout" :=
  timeout_reports_cleanup [true, true, false] 5 "execute" ⟨none, .raises "boom"⟩
    (by decide) (fun ft h => nomatch h)

/-- C5: `create_session` returns a session with `status=active` and
`step_count=0`, stored in memory and persisted to disk; `update_session`
returns not-found exactly for an unknown id, and otherwise bumps
`step_count` by one, refreshes `updated_at`, replaces `last_result`, appends
one `{step, timestamp, result}` history entry, persists the session, returns
it, and leaves `status` unchanged when no status argument is given. -/
theorem session_create_update (st : SMState) (id : String) (now : ℚ)
    (dev prov task : String) (result : AdapterPayload) (status : Option String)
    (now2 : ℚ) :
    ((create_session st id now dev prov task).2.status = "active" ∧
      (create_session st id now dev prov task).2.step_count = 0 ∧
      dictGet id (create_session st id now dev prov task).1.sessions =
        some (create_session st id now dev prov task).2 ∧
      dictGet id (create_session st id now dev prov task).1.disk =
        some (create_session st id now dev prov task).2) ∧
    (dictGet id st.sessions = none →
      update_session st id result status now2 = (st, none)) ∧
    (∀ s, dictGet id st.sessions = some s →
      (update_session st id result status now2).2 =
        some (advanceSession s result status now2) ∧
      (advanceSession s result status now2).step_count = s.step_count + 1 ∧
      (advanceSession s result status now2).updated_at = now2 ∧
      (advanceSession s result status now2).last_result = result ∧
      (advanceSession s result status now2).history =
        s.history ++ [⟨s.step_count + 1, now2, result⟩] ∧
      dictGet id (update_session st id result status now2).1.sessions =
        some (advanceSession s result status now2) ∧
      dictGet (advanceSession s result status now2).session_id
          (update_session st id result status now2).1.disk =
        some (advanceSession s result status now2) ∧
      (status = none → (advanceSession s result status now2).status = s.status)) := by
  refine ⟨⟨rfl, rfl, ?_, ?_⟩, ?_, ?_⟩
  · exact dictGet_dictSet_self id _ st.sessions
  · exact dictGet_dictSet_self id _ st.disk
  · intro h
    unfold update_session
    rw [h]
  · intro s hs
    unfold update_session
    rw [hs]
    refine ⟨rfl, rfl, rfl, rfl, rfl, ?_, ?_, ?_⟩
    · exact dictGet_dictSet_self id _ st.sessions
    · exact dictGet_dictSet_self _ _ st.disk
    · intro hnone
      subst hnone
      rfl

/-- Concrete payload used by witnesses. -/
def wPayload : AdapterPayload := .dict none none (some "done") none

/-- Concrete active session used by witnesses. -/
def wSession : Session :=
  { session_id := "s1", device_id := "d", provider := "p", task := "t",
    created_at := 0, updated_at := 0 }

/-- Concrete completed session used by witnesses. -/
def wCompleted : Session :=
  { session_id := "c1", device_id := "d", provider := "p", task := "t",
    created_at := 0, updated_at := 0, status := "completed" }

/-- Concrete store holding one active session. -/
def wState : SMState := ⟨[("s1", wSession)], [("s1", wSession)], 3600⟩

/-- Concrete store holding one completed session. -/
def wStateC : SMState := ⟨[("c1", wCompleted)], [("c1", wCompleted)], 3600⟩

/-- Concrete executor environment used by witnesses. -/
def wEnv : ExecEnv := { devices := ["d"], default_provider := some "p" }

/-- Concrete worker behaviour used by witnesses: never finishes. -/
def wRun : WorkerRun := ⟨none, .raises "boom"⟩

theorem session_create_update_witness :
    ((create_session wState "s1" 1 "d" "p" "t").2.status = "active" ∧
      (create_session wState "s1" 1 "d" "p" "t").2.step_count = 0 ∧
      dictGet "s1" (create_session wState "s1" 1 "d" "p" "t").1.sessions =
        some (create_session wState "s1" 1 "d" "p" "t").2 ∧
      dictGet "s1" (create_session wState "s1" 1 "d" "p" "t").1.disk =
        some (create_session wState "s1" 1 "d" "p" "t").2) ∧
    update_session wState "zz" wPayload none 2 = (wState, none) ∧
    ((update_session wState "s1" wPayload none 2).2 =
        some (advanceSession wSession wPayload none 2) ∧
      (advanceSession wSession wPayload none 2).step_count =
        wSession.step_count + 1 ∧
      (advanceSession wSession wPayload none 2).status = wSession.status) :=
  ⟨(session_create_update wState "s1" 1 "d" "p" "t" wPayload none 2).1,
    (session_create_update wState "zz" 1 "d" "p" "t" wPayload none 2).2.1 rfl,
    ((session_create_update wState "s1" 1 "d" "p" "t" wPayload none 2).2.2
        wSession rfl).1,
    ((session_create_update wState "s1" 1 "d" "p" "t" wPayload none 2).2.2
        wSession rfl).2.1,
    ((session_create_update wState "s1" 1 "d" "p" "t" wPayload none 2).2.2
        wSession rfl).2.2.2.2.2.2.2 rfl⟩

/-- C10: the Session Store's `update_session` answers not-found exactly when
the id is absent; on any stored session — whatever its current status — an
update with a non-empty status string succeeds, bumps `step_count`, appends
to history, and overwrites the status with the supplied string (the store
enforces no transition rules); the active-only gate lives in the executor's
continue path, which rejects a non-active session with a structured failure
and leaves the store untouched. -/
theorem store_enforces_no_transitions :
    (∀ (st : SMState) (id : String) (result : AdapterPayload)
        (status : Option String) (now : ℚ),
      (update_session st id result status now).2 = none ↔
        dictGet id st.sessions = none) ∧
    (∀ (st : SMState) (id : String) (s : Session) (result : AdapterPayload)
        (stat : String) (now : ℚ),
      dictGet id st.sessions = some s → ¬ stat = "" →
      (update_session st id result (some stat) now).2 =
        some (advanceSession s result (some stat) now) ∧
      (advanceSession s result (some stat) now).status = stat ∧
      (advanceSession s result (some stat) now).step_count = s.step_count + 1 ∧
      (advanceSession s result (some stat) now).history =
        s.history ++ [⟨s.step_count + 1, now, result⟩]) ∧
    (∀ (env : ExecEnv) (st : SMState) (reg : List Bool) (session : Session)
        (task : Option String) (max_steps timeout_sec : Option ℤ)
        (w : WorkerRun) (post : PostEnv) (now2 : ℚ),
      ¬ session.status = "active" →
      (continue_with env st reg session task max_steps timeout_sec w post
          now2).result.success = false ∧
      (continue_with env st reg session task max_steps timeout_sec w post
          now2).result.error = some ("Session is " ++ session.status) ∧
      (continue_with env st reg session task max_steps timeout_sec w post
          now2).state = st) := by
  refine ⟨?_, ?_, ?_⟩
  · intro st id result status now
    constructor
    · intro h
      unfold update_session at h
      cases hd : dictGet id st.sessions with
      | none => rfl
      | some s =>
        rw [hd] at h
        simp at h
    · intro h
      unfold update_session
      rw [h]
  · intro st id s result stat now hs hstat
    unfold update_session
    rw [hs]
    refine ⟨rfl, ?_, rfl, rfl⟩
    simp [advanceSession, strTruthy, hstat]
  · intro env st reg session task max_steps timeout_sec w post now2 hstatus
    unfold continue_with
    rw [if_pos hstatus]
    exact ⟨rfl, rfl, rfl⟩

theorem store_enforces_no_transitions_witness :
    ((update_session wState "s1" wPayload none 2).2 = none ↔
      dictGet "s1" wState.sessions = none) ∧
    ((update_session wStateC "c1" wPayload (some "active") 2).2 =
        some (advanceSession wCompleted wPayload (some "active") 2) ∧
      (advanceSession wCompleted wPayload (some "active") 2).status = "active" ∧
      (advanceSession wCompleted wPayload (some "active") 2).step_count =
        wCompleted.step_count + 1 ∧
      (advanceSession wCompleted wPayload (some "active") 2).history =
        wCompleted.history ++ [⟨wCompleted.step_count + 1, 2, wPayload⟩]) ∧
    ((continue_with wEnv wStateC [] wCompleted none none none wRun {} 3).result.success = false ∧
      (continue_with wEnv wStateC [] wCompleted none none none wRun {} 3).result.error =
        some ("Session is " ++ wCompleted.status) ∧
      (continue_with wEnv wStateC [] wCompleted none none none wRun {} 3).state = wStateC) :=
  ⟨store_enforces_no_transitions.1 wState "s1" wPayload none 2,
    store_enforces_no_transitions.2.1 wStateC "c1" wCompleted wPayload "active" 2
      rfl (by decide),
    store_enforces_no_transitions.2.2 wEnv wStateC [] wCompleted none none none
      wRun {} 3 (by decide)⟩

/-- C9: on a stateful (non-stateless) `execute_task` call that passes
validation and device selection, a session is created and persisted with
`status=active` and `step_count=0` before the adapter is invoked; when the
adapter invocation then raises or times out, the returned result has
`success=false` and carries that session id, and the store still holds the
created session unchanged — the final store is exactly the post-create
store, so the session is neither rolled back nor deleted on error. -/
theorem execute_error_keeps_session
    (env : ExecEnv) (st : SMState) (reg : List Bool) (task : String)
    (provider device_id : Option String) (max_steps timeout_sec : Option ℤ)
    (gen_id : String) (now : ℚ) (w : WorkerRun) (post : PostEnv) (now2 : ℚ)
    (dev : String)
    (htap : env.tap_only_mode = false)
    (hprov : ¬ resolved_provider env provider = "")
    (hsteps : ¬ resolved_max_steps env max_steps false ≤ 0)
    (hvalid : env.validate_provider_ok = true)
    (hdev : select_device device_id env.default_device_id env.devices = .ok dev)
    (hfail : ¬ outcomeKind (run_with_timeout reg (resolved_timeout env timeout_sec)
      "execute" w).outcome = "success") :
    (execute_task env st reg task provider device_id max_steps timeout_sec
        false gen_id now w post now2).result.success = false ∧
    (execute_task env st reg task provider device_id max_steps timeout_sec
        false gen_id now w post now2).result.session_id = some gen_id ∧
    (execute_task env st reg task provider device_id max_steps timeout_sec
        false gen_id now w post now2).state =
      (create_session st gen_id now dev (resolved_provider env provider) task).1 ∧
    dictGet gen_id (execute_task env st reg task provider device_id max_steps
        timeout_sec false gen_id now w post now2).state.sessions =
      some (create_session st gen_id now dev (resolved_provider env provider) task).2 ∧
    (create_session st gen_id now dev (resolved_provider env provider) task).2.status =
      "active" ∧
    (create_session st gen_id now dev (resolved_provider env provider) task).2.step_count =
      0 := by
  unfold execute_task
  rw [if_neg (by simp [htap]), if_neg hprov, if_neg hsteps,
    if_neg (by simp [hvalid]), hdev]
  unfold execute_run
  cases hrun : run_with_timeout reg (resolved_timeout env timeout_sec) "execute" w with
  | mk reg' outc =>
    rw [hrun] at hfail
    cases outc with
    | success r => simp [outcomeKind] at hfail
    | failure msg =>
      refine ⟨rfl, rfl, rfl, ?_, rfl, rfl⟩
      exact dictGet_dictSet_self gen_id _ st.sessions
    | timeout msg cleaned =>
      refine ⟨rfl, rfl, rfl, ?_, rfl, rfl⟩
      exact dictGet_dictSet_self gen_id _ st.sessions

theorem execute_error_keeps_session_witness :
    (execute_task wEnv wState [] "t" none none none (some 5)
        false "g1" 1 wRun {} 2).result.success = false ∧
    (execute_task wEnv wState [] "t" none none none (some 5)
        false "g1" 1 wRun {} 2).result.session_id = some "g1" ∧
    (execute_task wEnv wState [] "t" none none none (some 5)
        false "g1" 1 wRun {} 2).state =
      (create_session wState "g1" 1 "d" (resolved_provider wEnv none) "t").1 ∧
    dictGet "g1" (execute_task wEnv wState [] "t" none none none (some 5)
        false "g1" 1 wRun {} 2).state.sessions =
      some (create_session wState "g1" 1 "d" (resolved_provider wEnv none) "t").2 ∧
    (create_session wState "g1" 1 "d" (resolved_provider wEnv none) "t").2.status =
      "active" ∧
    (create_session wState "g1" 1 "d" (resolved_provider wEnv none) "t").2.step_count =
      0 :=
  execute_error_keeps_session wEnv wState [] "t" none none none (some 5)
    "g1" 1 wRun {} 2 "d" (by decide) (by decide) (by decide) (by decide)
    rfl (by decide)

/-! ## Session status machine (C6): step relation and transition lemmas -/

lemma mem_of_dictGet {α : Type} (m : List (String × α)) (k : String) (v : α)
    (h : dictGet k m = some v) : (k, v) ∈ m := by
  induction m with
  | nil => simp [dictGet] at h
  | cons kv rest ih =>
    by_cases hk : kv.1 = k
    · unfold dictGet at h
      rw [if_pos hk] at h
      obtain ⟨rfl⟩ := Option.some.inj h
      subst hk
      simp
    · unfold dictGet at h
      rw [if_neg hk] at h
      exact List.mem_cons_of_mem _ (ih h)

lemma dictGet_of_mem_nodup {α : Type} (m : List (String × α)) (k : String)
    (v : α) (hnodup : (m.map Prod.fst).Nodup) (hm : (k, v) ∈ m) :
    dictGet k m = some v := by
  induction m with
  | nil => simp at hm
  | cons kv rest ih =>
    simp only [List.map_cons, List.nodup_cons] at hnodup
    rcases List.mem_cons.mp hm with heq | hmem
    · unfold dictGet
      rw [if_pos (congrArg Prod.fst heq.symm)]
      rw [← heq]
    · have hk : ¬ kv.1 = k := by
        intro hk
        exact hnodup.1 (hk ▸ List.mem_map.mpr ⟨(k, v), hmem, rfl⟩)
      unfold dictGet
      rw [if_neg hk]
      exact ih hnodup.2 hmem

lemma dictGet_filter_some {α : Type} (m : List (String × α))
    (p : String × α → Bool) (k : String) (v : α)
    (hnodup : (m.map Prod.fst).Nodup)
    (h : dictGet k (m.filter p) = some v) : dictGet k m = some v := by
  induction m with
  | nil => simp [List.filter, dictGet] at h
  | cons kv rest ih =>
    simp only [List.map_cons, List.nodup_cons] at hnodup
    by_cases hp : p kv
    · rw [List.filter_cons_of_pos hp] at h
      unfold dictGet at h ⊢
      by_cases hk : kv.1 = k
      · rwa [if_pos hk] at h ⊢
      · rw [if_neg hk] at h ⊢
        exact ih hnodup.2 h
    · rw [List.filter_cons_of_neg hp] at h
      have hrest := ih hnodup.2 h
      have hkmem : k ∈ rest.map Prod.fst :=
        List.mem_map.mpr ⟨(k, v), mem_of_dictGet rest k v hrest, rfl⟩
      have hk : ¬ kv.1 = k := fun hk => hnodup.1 (hk ▸ hkmem)
      unfold dictGet
      rw [if_neg hk]
      exact hrest

/-- The store invariants a well-formed `SessionManager` maintains: dict keys
are unique, every stored status is one of active/completed/expired, and each
session is stored under its own `session_id`. -/
def KeysNodup (st : SMState) : Prop := (st.sessions.map Prod.fst).Nodup

def StatusDomain (st : SMState) : Prop :=
  ∀ kv ∈ st.sessions,
    kv.2.status = "active" ∨ kv.2.status = "completed" ∨ kv.2.status = "expired"

def KeyConsistent (st : SMState) : Prop :=
  ∀ kv ∈ st.sessions, kv.2.session_id = kv.1

/-- The status transitions the amended claim allows for an existing session:
no change, `active → completed`, `active → expired`, and — because the lazy
expiry flip on read applies to any stale session regardless of its current
status — also `completed → expired`. -/
def AllowedTransition (old new : String) : Prop :=
  old = new ∨ (old = "active" ∧ (new = "completed" ∨ new = "expired")) ∨
    (old = "completed" ∧ new = "expired")

/-- The status transitions the original claim allows for an existing
session: no change, `active → completed`, or `active → expired`. -/
def ClaimAllowedTransition (old new : String) : Prop :=
  old = new ∨ (old = "active" ∧ (new = "completed" ∨ new = "expired"))

/-- One step is transition-correct when every surviving session moves along
an allowed edge and every newly appearing session starts `active` (possibly
already advanced to `completed` by the first adapter step of the same
call). -/
def TransitionOK (st st' : SMState) : Prop :=
  (∀ id s s', dictGet id st.sessions = some s →
    dictGet id st'.sessions = some s' → AllowedTransition s.status s'.status) ∧
  (∀ id s', dictGet id st.sessions = none →
    dictGet id st'.sessions = some s' →
    s'.status = "active" ∨ s'.status = "completed")

/-- One public executor-level operation on the session store: a task
execution (with a fresh uuid), a session continuation, a session fetch, an
active-session enumeration (directly or via latest-session lookup), an
expired purge, or a deletion. -/
inductive ExecStep : SMState → SMState → Prop where
  | execute (env : ExecEnv) (st : SMState) (reg : List Bool) (task : String)
      (provider device_id : Option String) (max_steps timeout_sec : Option ℤ)
      (stateless : Bool) (gen_id : String) (now : ℚ) (w : WorkerRun)
      (post : PostEnv) (now2 : ℚ)
      (hfresh : dictGet gen_id st.sessions = none) :
      ExecStep st (execute_task env st reg task provider device_id max_steps
        timeout_sec stateless gen_id now w post now2).state
  | cont (env : ExecEnv) (st : SMState) (reg : List Bool)
      (session_id task device_id : Option String)
      (max_steps timeout_sec : Option ℤ) (now : ℚ) (w : WorkerRun)
      (post : PostEnv) (now2 : ℚ) :
      ExecStep st (continue_session env st reg session_id task device_id
        max_steps timeout_sec now w post now2).state
  | getS (st : SMState) (sid : String) (now : ℚ) :
      ExecStep st (get_session st sid now).1
  | listA (st : SMState) (now : ℚ) :
      ExecStep st (list_active_sessions st now).1
  | latest (st : SMState) (dev : Option String) (now : ℚ) :
      ExecStep st (get_latest_session st dev now).1
  | purge (st : SMState) (now : ℚ) :
      ExecStep st (cleanup_expired st now).1
  | deleteS (st : SMState) (sid : String) :
      ExecStep st (delete_session st sid).1

lemma allowedTransition_refl (s : String) : AllowedTransition s s := Or.inl rfl

lemma transitionOK_refl (st : SMState) : TransitionOK st st := by
  constructor
  · intro id s s' h h'
    rw [h] at h'
    obtain ⟨rfl⟩ := Option.some.inj h'
    exact allowedTransition_refl _
  · intro id s' h h'
    rw [h] at h'
    exact absurd h' (by simp)

lemma transitionOK_of_eq (st st' : SMState) (h : st'.sessions = st.sessions) :
    TransitionOK st st' := by
  constructor
  · intro id s s' h1 h2
    rw [h, h1] at h2
    obtain ⟨rfl⟩ := Option.some.inj h2
    exact allowedTransition_refl _
  · intro id s' h1 h2
    rw [h, h1] at h2
    exact absurd h2 (by simp)

/-- Any operation that only removes entries (filters the dict) is
transition-correct. -/
lemma transitionOK_filter (st st' : SMState) (p : String × Session → Bool)
    (hnodup : KeysNodup st) (h : st'.sessions = st.sessions.filter p) :
    TransitionOK st st' := by
  constructor
  · intro id s s' h1 h2
    rw [h] at h2
    have := dictGet_filter_some st.sessions p id s' hnodup h2
    rw [h1] at this
    obtain ⟨rfl⟩ := Option.some.inj this
    exact allowedTransition_refl _
  · intro id s' h1 h2
    rw [h] at h2
    have := dictGet_filter_some st.sessions p id s' hnodup h2
    rw [h1] at this
    exact absurd this (by simp)

/-- Effect of `get_session` on any lookup. -/
lemma get_session_lookup (st : SMState) (sid : String) (now : ℚ) (id : String) :
    dictGet id (get_session st sid now).1.sessions = dictGet id st.sessions ∨
    (∃ sess, dictGet sid st.sessions = some sess ∧ id = sid ∧
      dictGet id (get_session st sid now).1.sessions = some (expireFlip sess)) := by
  unfold get_session
  cases h : dictGet sid st.sessions with
  | none => left; rfl
  | some sess =>
    dsimp only
    by_cases hstale : st.expire_seconds < now - sess.updated_at
    · rw [if_pos hstale]
      by_cases hid : id = sid
      · subst hid
        right
        exact ⟨sess, rfl, rfl, dictGet_dictSet_self id _ st.sessions⟩
      · left
        exact dictGet_dictSet_ne sid id _ st.sessions hid
    · rw [if_neg hstale]
      left
      rfl

/-- `get_session` is transition-correct on a well-formed store. -/
lemma get_transitionOK (st : SMState) (sid : String) (now : ℚ)
    (hdom : StatusDomain st) : TransitionOK st (get_session st sid now).1 := by
  constructor
  · intro id s s' h1 h2
    rcases get_session_lookup st sid now id with hsame | ⟨sess, hsess, rfl, hpost⟩
    · rw [hsame, h1] at h2
      obtain ⟨rfl⟩ := Option.some.inj h2
      exact allowedTransition_refl _
    · rw [h1] at hsess
      obtain ⟨rfl⟩ := Option.some.inj hsess
      rw [hpost] at h2
      obtain ⟨rfl⟩ := Option.some.inj h2
      have hd := hdom (id, s) (mem_of_dictGet _ _ _ h1)
      rcases hd with h | h | h <;>
        simp only [AllowedTransition, expireFlip, h] <;> tauto
  · intro id s' h1 h2
    rcases get_session_lookup st sid now id with hsame | ⟨sess, hsess, rfl, hpost⟩
    · rw [hsame, h1] at h2
      exact absurd h2 (by simp)
    · rw [h1] at hsess
      exact absurd hsess (by simp)

/-- Effect of `update_session` on any lookup. -/
lemma update_session_lookup (st : SMState) (sid : String)
    (result : AdapterPayload) (status : Option String) (now : ℚ) (id : String) :
    dictGet id (update_session st sid result status now).1.sessions =
      dictGet id st.sessions ∨
    (∃ sess, dictGet sid st.sessions = some sess ∧ id = sid ∧
      dictGet id (update_session st sid result status now).1.sessions =
        some (advanceSession sess result status now)) := by
  unfold update_session
  cases h : dictGet sid st.sessions with
  | none => left; rfl
  | some sess =>
    dsimp only
    by_cases hid : id = sid
    · subst hid
      right
      exact ⟨sess, rfl, rfl, dictGet_dictSet_self id _ st.sessions⟩
    · left
      exact dictGet_dictSet_ne sid id _ st.sessions hid

/-- The store `_process_result` leaves behind on the persisted path is
exactly the one `update_session` produces (with status `completed` iff the
derived next action is `complete`). -/
lemma process_result_state (st : SMState) (sid prov dev : String)
    (r : AdapterPayload) (task : String) (now : ℚ) (env : PostEnv) :
    (process_result st sid prov dev r task true now env).1 =
      (update_session st sid r
        (some (if determine_next_action r = "complete" then "completed" else "active"))
        now).1 := by
  unfold process_result
  cases hu : update_session st sid r
      (some (if determine_next_action r = "complete" then "completed" else "active"))
      now with
  | mk st' o => cases o <;> simp

/-- `_process_result` (persisted path) is transition-correct provided any
session stored under the target id is active. -/
lemma process_transitionOK (st : SMState) (sid prov dev : String)
    (r : AdapterPayload) (task : String) (now : ℚ) (env : PostEnv)
    (hact : ∀ sess, dictGet sid st.sessions = some sess → sess.status = "active") :
    TransitionOK st (process_result st sid prov dev r task true now env).1 := by
  rw [process_result_state]
  constructor
  · intro id s s' h1 h2
    rcases update_session_lookup st sid r
        (some (if determine_next_action r = "complete" then "completed" else "active"))
        now id with hsame | ⟨sess, hsess, rfl, hpost⟩
    · rw [hsame, h1] at h2
      obtain ⟨rfl⟩ := Option.some.inj h2
      exact allowedTransition_refl _
    · rw [h1] at hsess
      obtain ⟨rfl⟩ := Option.some.inj hsess
      rw [hpost] at h2
      obtain ⟨rfl⟩ := Option.some.inj h2
      have hs := hact s h1
      by_cases hc : determine_next_action r = "complete"
      · right; left
        exact ⟨hs, Or.inl (by simp [advanceSession, strTruthy, hc])⟩
      · left
        rw [hs]
        simp [advanceSession, strTruthy, hc]
  · intro id s' h1 h2
    rcases update_session_lookup st sid r
        (some (if determine_next_action r = "complete" then "completed" else "active"))
        now id with hsame | ⟨sess, hsess, rfl, hpost⟩
    · rw [hsame, h1] at h2
      exact absurd h2 (by simp)
    · rw [h1] at hsess
      exact absurd hsess (by simp)

/-- Effect of the `list_active_sessions` loop on any lookup: an entry is
either untouched or was a stale active session flipped to `expired`. -/
lemma list_active_go_lookup (expire now : ℚ) (entries : List (String × Session))
    (st : SMState) (acc : List Session) (id : String) :
    dictGet id (list_active_go expire now entries st acc).1.sessions =
      dictGet id st.sessions ∨
    (∃ sess, (id, sess) ∈ entries ∧ sess.status = "active" ∧
      expire < now - sess.updated_at ∧
      dictGet id (list_active_go expire now entries st acc).1.sessions =
        some (expireFlip sess)) := by
  induction entries generalizing st acc with
  | nil => left; rfl
  | cons kv rest ih =>
    obtain ⟨key, sess⟩ := kv
    simp only [list_active_go]
    by_cases ha : sess.status = "active"
    · rw [if_pos ha]
      by_cases hstale : expire < now - sess.updated_at
      · rw [if_pos hstale]
        rcases ih (mutateSession st key (expireFlip sess)) acc with h | ⟨s2, hmem, hact, hst, hpost⟩
        · by_cases hid : id = key
          · subst hid
            right
            refine ⟨sess, by simp, ha, hstale, ?_⟩
            rw [h]
            exact dictGet_dictSet_self id _ st.sessions
          · left
            rw [h]
            exact dictGet_dictSet_ne key id _ st.sessions hid
        · right
          exact ⟨s2, List.mem_cons_of_mem _ hmem, hact, hst, hpost⟩
      · rw [if_neg hstale]
        rcases ih st (acc ++ [sess]) with h | ⟨s2, hmem, hact, hst, hpost⟩
        · left; exact h
        · right; exact ⟨s2, List.mem_cons_of_mem _ hmem, hact, hst, hpost⟩
    · rw [if_neg ha]
      rcases ih st acc with h | ⟨s2, hmem, hact, hst, hpost⟩
      · left; exact h
      · right; exact ⟨s2, List.mem_cons_of_mem _ hmem, hact, hst, hpost⟩

/-- Every session the `list_active_sessions` loop collects is a fresh
(non-stale) active entry of the iterated list, or was already collected. -/
lemma list_active_go_collected (expire now : ℚ) (entries : List (String × Session))
    (st : SMState) (acc : List Session) (s : Session)
    (h : s ∈ (list_active_go expire now entries st acc).2) :
    s ∈ acc ∨ ∃ key, (key, s) ∈ entries ∧ s.status = "active" ∧
      ¬ expire < now - s.updated_at := by
  induction entries generalizing st acc with
  | nil => left; exact h
  | cons kv rest ih =>
    obtain ⟨key, sess⟩ := kv
    simp only [list_active_go] at h
    by_cases ha : sess.status = "active"
    · rw [if_pos ha] at h
      by_cases hstale : expire < now - sess.updated_at
      · rw [if_pos hstale] at h
        rcases ih _ _ h with hacc | ⟨k2, hmem, hact, hst⟩
        · left; exact hacc
        · right; exact ⟨k2, List.mem_cons_of_mem _ hmem, hact, hst⟩
      · rw [if_neg hstale] at h
        rcases ih _ _ h with hacc | ⟨k2, hmem, hact, hst⟩
        · rcases List.mem_append.mp hacc with h1 | h1
          · left; exact h1
          · obtain ⟨rfl⟩ := List.mem_singleton.mp h1
            right
            exact ⟨key, by simp, ha, hstale⟩
        · right; exact ⟨k2, List.mem_cons_of_mem _ hmem, hact, hst⟩
    · rw [if_neg ha] at h
      rcases ih _ _ h with hacc | ⟨k2, hmem, hact, hst⟩
      · left; exact hacc
      · right; exact ⟨k2, List.mem_cons_of_mem _ hmem, hact, hst⟩

/-- `max(..., key=updated_at)` returns an element of its list. -/
lemma foldl_pick_mem (l : List Session) (b : Session) :
    l.foldl (fun best cur =>
      if best.updated_at < cur.updated_at then cur else best) b = b ∨
    l.foldl (fun best cur =>
      if best.updated_at < cur.updated_at then cur else best) b ∈ l := by
  induction l generalizing b with
  | nil => left; rfl
  | cons x xs ih =>
    simp only [List.foldl_cons]
    rcases ih (if b.updated_at < x.updated_at then x else b) with h | h
    · rw [h]
      by_cases hx : b.updated_at < x.updated_at
      · right; simp [hx]
      · left; simp [hx]
    · right; exact List.mem_cons_of_mem _ h

lemma latestBy_mem (l : List Session) (s : Session) (h : latestBy l = some s) :
    s ∈ l := by
  cases l with
  | nil => simp [latestBy] at h
  | cons x xs =>
    unfold latestBy at h
    obtain ⟨rfl⟩ := Option.some.inj h
    rcases foldl_pick_mem xs x with h1 | h1
    · rw [h1]; simp
    · exact List.mem_cons_of_mem _ h1

/-- Relation between a store and the store after a lazy-expiry pass that
only flips stale *active* sessions (the `list_active_sessions` loop). -/
def LazyFlipRel (st st1 : SMState) : Prop :=
  ∀ id, dictGet id st1.sessions = dictGet id st.sessions ∨
    ∃ sess, dictGet id st.sessions = some sess ∧ sess.status = "active" ∧
      dictGet id st1.sessions = some (expireFlip sess)

lemma lazyFlipRel_refl (st : SMState) : LazyFlipRel st st := fun _ => Or.inl rfl

lemma nodup_mem_unique {α : Type} (m : List (String × α)) (k : String)
    (a b : α) (hnodup : (m.map Prod.fst).Nodup)
    (ha : (k, a) ∈ m) (hb : (k, b) ∈ m) : a = b := by
  have h1 := dictGet_of_mem_nodup m k a hnodup ha
  have h2 := dictGet_of_mem_nodup m k b hnodup hb
  rw [h1] at h2
  exact Option.some.inj h2

lemma list_active_lazyFlipRel (st : SMState) (now : ℚ) (hnodup : KeysNodup st) :
    LazyFlipRel st (list_active_sessions st now).1 := by
  intro id
  rcases list_active_go_lookup st.expire_seconds now st.sessions st [] id with
    h | ⟨sess, hmem, hact, hst, hpost⟩
  · left; exact h
  · right
    exact ⟨sess, dictGet_of_mem_nodup st.sessions id sess hnodup hmem, hact, hpost⟩

lemma lazyFlipRel_transitionOK (st st1 : SMState) (hrel : LazyFlipRel st st1) :
    TransitionOK st st1 := by
  constructor
  · intro id s s' h1 h2
    rcases hrel id with he | ⟨sess, hpre, hact, hflip⟩
    · rw [he, h1] at h2
      obtain ⟨rfl⟩ := Option.some.inj h2
      exact allowedTransition_refl _
    · rw [h1] at hpre
      obtain ⟨rfl⟩ := Option.some.inj hpre
      rw [hflip] at h2
      obtain ⟨rfl⟩ := Option.some.inj h2
      right; left
      exact ⟨hact, Or.inr rfl⟩
  · intro id s' h1 h2
    rcases hrel id with he | ⟨sess, hpre, hact, hflip⟩
    · rw [he, h1] at h2
      exact absurd h2 (by simp)
    · rw [h1] at hpre
      exact absurd hpre (by simp)

lemma get_latest_fst (st : SMState) (dev : Option String) (now : ℚ) :
    (get_latest_session st dev now).1 = (list_active_sessions st now).1 := by
  unfold get_latest_session
  cases list_active_sessions st now
  rfl

/-- A session returned by `get_latest_session` is active. -/
lemma get_latest_active (st : SMState) (dev : Option String) (now : ℚ)
    (s : Session) (h : (get_latest_session st dev now).2 = some s) :
    s.status = "active" := by
  unfold get_latest_session at h
  cases hl : list_active_sessions st now with
  | mk st1 active =>
    rw [hl] at h
    dsimp only at h
    have hmem := latestBy_mem _ _ h
    have hmem2 : s ∈ active := by
      by_cases hdev : strTruthy dev
      · rw [if_pos hdev] at hmem
        exact List.mem_of_mem_filter hmem
      · rwa [if_neg hdev] at hmem
    have hcol := list_active_go_collected st.expire_seconds now st.sessions st [] s
      (by rw [show (list_active_go st.expire_seconds now st.sessions st []) =
        (st1, active) from hl]; exact hmem2)
    rcases hcol with hacc | ⟨key, hmemk, hact, hst⟩
    · simp at hacc
    · exact hact

/-- A session returned by `get_latest_session` is active, still stored under
its own id in the post-enumeration store, and that entry is unchanged. -/
lemma get_latest_stored (st : SMState) (dev : Option String) (now : ℚ)
    (s : Session) (hnodup : KeysNodup st) (hkey : KeyConsistent st)
    (h : (get_latest_session st dev now).2 = some s) :
    dictGet s.session_id (get_latest_session st dev now).1.sessions = some s := by
  unfold get_latest_session at h
  cases hl : list_active_sessions st now with
  | mk st1 active =>
    rw [hl] at h
    dsimp only at h
    have hmem := latestBy_mem _ _ h
    have hmem2 : s ∈ active := by
      by_cases hdev : strTruthy dev
      · rw [if_pos hdev] at hmem
        exact List.mem_of_mem_filter hmem
      · rwa [if_neg hdev] at hmem
    have hcol := list_active_go_collected st.expire_seconds now st.sessions st [] s
      (by rw [show (list_active_go st.expire_seconds now st.sessions st []) =
        (st1, active) from hl]; exact hmem2)
    rcases hcol with hacc | ⟨key, hmemk, hact, hst⟩
    · simp at hacc
    · have hkeyid : s.session_id = key := hkey (key, s) hmemk
      rw [get_latest_fst, hl]
      rcases list_active_go_lookup st.expire_seconds now st.sessions st [] key with
        hsame | ⟨sess2, hmem2k, hact2, hst2, hpost2⟩
      · rw [hkeyid]
        rw [show (list_active_go st.expire_seconds now st.sessions st []).1 = st1
          from congrArg Prod.fst hl] at hsame
        rw [hsame]
        exact dictGet_of_mem_nodup st.sessions key s hnodup hmemk
      · have : sess2 = s := nodup_mem_unique st.sessions key sess2 s hnodup hmem2k hmemk
        subst this
        exact absurd hst2 hst

/-- When `get_session` returns an *active* session, no expiry flip happened:
the store is unchanged and the session is the stored entry. -/
lemma get_session_active_state (st : SMState) (sid : String) (now : ℚ)
    (session : Session) (h : (get_session st sid now).2 = some session)
    (hact : session.status = "active") :
    (get_session st sid now).1 = st ∧ dictGet sid st.sessions = some session := by
  unfold get_session at h ⊢
  cases hd : dictGet sid st.sessions with
  | none => rw [hd] at h; simp at h
  | some sess =>
    rw [hd] at h
    dsimp only at h ⊢
    by_cases hstale : st.expire_seconds < now - sess.updated_at
    · rw [if_pos hstale] at h
      obtain ⟨rfl⟩ := Option.some.inj h.symm
      simp [expireFlip] at hact
    · rw [if_neg hstale] at h ⊢
      obtain ⟨rfl⟩ := Option.some.inj h
      exact ⟨rfl, rfl⟩

/-- Updating (via `_process_result`) an active session found in a store
reached by a lazy-expiry pass is transition-correct w.r.t. the original
store. -/
lemma flip_then_update_transitionOK (st st1 : SMState) (sid prov dev : String)
    (r : AdapterPayload) (task : String) (now2 : ℚ) (env2 : PostEnv)
    (session : Session) (hrel : LazyFlipRel st st1)
    (hsess : dictGet sid st1.sessions = some session)
    (hact : session.status = "active") :
    TransitionOK st (process_result st1 sid prov dev r task true now2 env2).1 := by
  rw [process_result_state]
  constructor
  · intro id s s' h1 h2
    rcases update_session_lookup st1 sid r
        (some (if determine_next_action r = "complete" then "completed" else "active"))
        now2 id with hsame | ⟨sess, hs1, rfl, hpost⟩
    · rw [hsame] at h2
      rcases hrel id with he | ⟨sess0, hpre, hact0, hflip⟩
      · rw [he, h1] at h2
        obtain ⟨rfl⟩ := Option.some.inj h2
        exact allowedTransition_refl _
      · rw [h1] at hpre
        obtain ⟨rfl⟩ := Option.some.inj hpre
        rw [hflip] at h2
        obtain ⟨rfl⟩ := Option.some.inj h2
        right; left
        exact ⟨hact0, Or.inr rfl⟩
    · rw [hs1] at hsess
      obtain ⟨rfl⟩ := Option.some.inj hsess
      rw [hpost] at h2
      obtain ⟨rfl⟩ := Option.some.inj h2
      have hpres : s = session := by
        rcases hrel id with he | ⟨sess0, hpre, hact0, hflip⟩
        · rw [he, h1] at hs1
          exact Option.some.inj hs1
        · rw [hflip] at hs1
          obtain ⟨rfl⟩ := Option.some.inj hs1
          simp [expireFlip] at hact
      by_cases hc : determine_next_action r = "complete"
      · right; left
        exact ⟨by rw [hpres]; exact hact,
          Or.inl (by simp [advanceSession, strTruthy, hc])⟩
      · left
        rw [hpres, hact]
        simp [advanceSession, strTruthy, hc]
  · intro id s' h1 h2
    rcases update_session_lookup st1 sid r
        (some (if determine_next_action r = "complete" then "completed" else "active"))
        now2 id with hsame | ⟨sess, hs1, rfl, hpost⟩
    · rw [hsame] at h2
      rcases hrel id with he | ⟨sess0, hpre, hact0, hflip⟩
      · rw [he, h1] at h2
        exact absurd h2 (by simp)
      · rw [h1] at hpre
        exact absurd hpre (by simp)
    · rcases hrel id with he | ⟨sess0, hpre, hact0, hflip⟩
      · rw [he, h1] at hs1
        exact absurd hs1 (by simp)
      · rw [h1] at hpre
        exact absurd hpre (by simp)

lemma process_result_stateless_state (st : SMState) (sid prov dev : String)
    (r : AdapterPayload) (task : String) (now : ℚ) (env2 : PostEnv) :
    (process_result st sid prov dev r task false now env2).1 = st := rfl

/-- Creating a fresh session is transition-correct. -/
lemma create_transitionOK (st : SMState) (gen_id : String) (now : ℚ)
    (dev prov task : String) (hfresh : dictGet gen_id st.sessions = none) :
    TransitionOK st (create_session st gen_id now dev prov task).1 := by
  constructor
  · intro id s s' h1 h2
    have hid : ¬ id = gen_id := by
      intro h
      rw [h, hfresh] at h1
      exact absurd h1 (by simp)
    rw [show dictGet id (create_session st gen_id now dev prov task).1.sessions =
      dictGet id st.sessions from dictGet_dictSet_ne gen_id id _ st.sessions hid,
      h1] at h2
    obtain ⟨rfl⟩ := Option.some.inj h2
    exact allowedTransition_refl _
  · intro id s' h1 h2
    by_cases hid : id = gen_id
    · subst hid
      rw [show dictGet id (create_session st id now dev prov task).1.sessions =
        some (create_session st id now dev prov task).2 from
        dictGet_dictSet_self id _ st.sessions] at h2
      obtain ⟨rfl⟩ := Option.some.inj h2
      left
      rfl
    · rw [show dictGet id (create_session st gen_id now dev prov task).1.sessions =
        dictGet id st.sessions from dictGet_dictSet_ne gen_id id _ st.sessions hid,
        h1] at h2
      exact absurd h2 (by simp)

/-- Creating a fresh session and then advancing it through
`_process_result` is transition-correct. -/
lemma create_update_transitionOK (st : SMState) (gen_id : String) (now : ℚ)
    (dev prov task : String) (r : AdapterPayload) (tk : String) (now2 : ℚ)
    (post : PostEnv) (hfresh : dictGet gen_id st.sessions = none) :
    TransitionOK st (process_result (create_session st gen_id now dev prov task).1
      gen_id prov dev r tk true now2 post).1 := by
  rw [process_result_state]
  have hcreated : dictGet gen_id (create_session st gen_id now dev prov task).1.sessions =
      some (create_session st gen_id now dev prov task).2 :=
    dictGet_dictSet_self gen_id _ st.sessions
  constructor
  · intro id s s' h1 h2
    have hid : ¬ id = gen_id := by
      intro h
      rw [h, hfresh] at h1
      exact absurd h1 (by simp)
    rcases update_session_lookup (create_session st gen_id now dev prov task).1
        gen_id r _ now2 id with hsame | ⟨sess, hs1, hidq, hpost⟩
    · rw [hsame, show dictGet id (create_session st gen_id now dev prov task).1.sessions =
        dictGet id st.sessions from dictGet_dictSet_ne gen_id id _ st.sessions hid,
        h1] at h2
      obtain ⟨rfl⟩ := Option.some.inj h2
      exact allowedTransition_refl _
    · exact absurd hidq hid
  · intro id s' h1 h2
    by_cases hid : id = gen_id
    · subst hid
      rcases update_session_lookup (create_session st id now dev prov task).1
          id r _ now2 id with hsame | ⟨sess, hs1, hidq, hpost⟩
      · rw [hsame, hcreated] at h2
        obtain ⟨rfl⟩ := Option.some.inj h2
        left
        rfl
      · rw [hcreated] at hs1
        obtain ⟨rfl⟩ := Option.some.inj hs1
        rw [hpost] at h2
        obtain ⟨rfl⟩ := Option.some.inj h2
        by_cases hc : determine_next_action r = "complete"
        · right
          simp [advanceSession, strTruthy, hc]
        · left
          simp [advanceSession, strTruthy, hc]
    · rcases update_session_lookup (create_session st gen_id now dev prov task).1
          gen_id r _ now2 id with hsame | ⟨sess, hs1, hidq, hpost⟩
      · rw [hsame, show dictGet id (create_session st gen_id now dev prov task).1.sessions =
          dictGet id st.sessions from dictGet_dictSet_ne gen_id id _ st.sessions hid,
          h1] at h2
        exact absurd h2 (by simp)
      · exact absurd hidq hid

/-- The adapter-invocation tail of `execute_task` is transition-correct as
soon as both its error path (state `st1`) and its success path are. -/
lemma execute_run_transitionOK (env : ExecEnv) (st0 st1 : SMState)
    (reg : List Bool) (sid prov dev task : String) (timeout_sec : Option ℤ)
    (stateless : Bool) (w : WorkerRun) (post : PostEnv) (now2 : ℚ)
    (hT : TransitionOK st0 st1)
    (hsucc : ∀ r, TransitionOK st0
      (process_result st1 sid prov dev r task (!stateless) now2 post).1) :
    TransitionOK st0 (execute_run env st1 reg sid prov dev task timeout_sec
      stateless w post now2).state := by
  unfold execute_run
  cases hr : (run_with_timeout reg (resolved_timeout env timeout_sec) "execute" w).outcome with
  | timeout m c => exact hT
  | failure m => exact hT
  | success r => exact hsucc r

/-- A full `execute_task` call (with a fresh uuid) is transition-correct. -/
lemma execute_transitionOK (env : ExecEnv) (st : SMState) (reg : List Bool)
    (task : String) (provider device_id : Option String)
    (max_steps timeout_sec : Option ℤ) (stateless : Bool) (gen_id : String)
    (now : ℚ) (w : WorkerRun) (post : PostEnv) (now2 : ℚ)
    (hfresh : dictGet gen_id st.sessions = none) :
    TransitionOK st (execute_task env st reg task provider device_id max_steps
      timeout_sec stateless gen_id now w post now2).state := by
  by_cases h1 : env.tap_only_mode = true
  · unfold execute_task
    rw [if_pos h1]
    exact transitionOK_refl st
  · by_cases h2 : resolved_provider env provider = ""
    · unfold execute_task
      rw [if_neg h1, if_pos h2]
      exact transitionOK_refl st
    · by_cases h3 : resolved_max_steps env max_steps stateless ≤ 0
      · unfold execute_task
        rw [if_neg h1, if_neg h2, if_pos h3]
        exact transitionOK_refl st
      · by_cases h4 : env.validate_provider_ok = true
        · unfold execute_task
          rw [if_neg h1, if_neg h2, if_neg h3, if_neg (by simp [h4])]
          cases hsel : select_device device_id env.default_device_id env.devices with
          | error e => exact transitionOK_refl st
          | ok dev =>
            dsimp only
            cases stateless with
            | true =>
              rw [if_pos rfl]
              exact execute_run_transitionOK env st st reg gen_id
                (resolved_provider env provider) dev task timeout_sec true w post
                now2 (transitionOK_refl st)
                (fun r => transitionOK_of_eq st _ rfl)
            | false =>
              rw [if_neg (by simp)]
              exact execute_run_transitionOK env st
                (create_session st gen_id now dev (resolved_provider env provider) task).1
                reg gen_id (resolved_provider env provider) dev task timeout_sec
                false w post now2
                (create_transitionOK st gen_id now dev
                  (resolved_provider env provider) task hfresh)
                (fun r => create_update_transitionOK st gen_id now dev
                  (resolved_provider env provider) task r task now2 post hfresh)
        · unfold execute_task
          rw [if_neg h1, if_neg h2, if_neg h3, if_pos h4]
          exact transitionOK_refl st

/-- The post-fetch tail of `continue_session` is transition-correct as soon
as its rejection paths (state `st1`) and its update path are. -/
lemma continue_with_transitionOK (env : ExecEnv) (st0 st1 : SMState)
    (reg : List Bool) (session : Session) (task : Option String)
    (max_steps timeout_sec : Option ℤ) (w : WorkerRun) (post : PostEnv)
    (now2 : ℚ) (hT : TransitionOK st0 st1)
    (hupd : session.status = "active" → ∀ r tk, TransitionOK st0
      (process_result st1 session.session_id session.provider
        session.device_id r tk true now2 post).1) :
    TransitionOK st0 (continue_with env st1 reg session task max_steps
      timeout_sec w post now2).state := by
  unfold continue_with
  by_cases h1 : ¬ session.status = "active"
  · rw [if_pos h1]
    exact hT
  · rw [if_neg h1]
    push_neg at h1
    by_cases h2 : pyOrInt max_steps env.default_max_steps ≤ 0
    · rw [if_pos h2]
      exact hT
    · rw [if_neg h2]
      cases hd : ensure_device_connected env.devices session.device_id with
      | error e => exact hT
      | ok u =>
        cases hr : (run_with_timeout reg (resolved_timeout env timeout_sec)
            "continue" w).outcome with
        | timeout m c => exact hT
        | failure m => exact hT
        | success r => exact hupd h1 r _

/-- The fetch-dispatch of `continue_session` is transition-correct when the
post-fetch store is and every active fetched session supports the update. -/
lemma continue_fetch_transitionOK (env : ExecEnv) (st0 : SMState)
    (reg : List Bool) (fetched : SMState × Option Session)
    (notFoundRes : ExecResult) (task : Option String)
    (max_steps timeout_sec : Option ℤ) (w : WorkerRun) (post : PostEnv)
    (now2 : ℚ) (hT : TransitionOK st0 fetched.1)
    (hupd : ∀ session, fetched.2 = some session →
      session.status = "active" → ∀ r tk, TransitionOK st0
        (process_result fetched.1 session.session_id session.provider
          session.device_id r tk true now2 post).1) :
    TransitionOK st0 (continue_fetch env reg fetched notFoundRes task max_steps
      timeout_sec w post now2).state := by
  unfold continue_fetch
  cases hf : fetched.2 with
  | none => exact hT
  | some session =>
    exact continue_with_transitionOK env st0 fetched.1 reg session task
      max_steps timeout_sec w post now2 hT (fun hact => hupd session hf hact)

/-- A full `continue_session` call on a well-formed store is
transition-correct. -/
lemma continue_transitionOK (env : ExecEnv) (st : SMState) (reg : List Bool)
    (session_id task device_id : Option String)
    (max_steps timeout_sec : Option ℤ) (now : ℚ) (w : WorkerRun)
    (post : PostEnv) (now2 : ℚ) (hnodup : KeysNodup st) (hdom : StatusDomain st)
    (hkey : KeyConsistent st) :
    TransitionOK st (continue_session env st reg session_id task device_id
      max_steps timeout_sec now w post now2).state := by
  unfold continue_session
  by_cases htap : env.tap_only_mode = true
  · rw [if_pos htap]
    exact transitionOK_refl st
  · rw [if_neg htap]
    cases session_id with
    | none =>
      refine continue_fetch_transitionOK env st reg
        (get_latest_session st device_id now) _ task max_steps timeout_sec
        w post now2 ?_ ?_
      · rw [get_latest_fst]
        exact lazyFlipRel_transitionOK _ _ (list_active_lazyFlipRel st now hnodup)
      · intro session hf hact r tk
        have hstored : dictGet session.session_id
            (get_latest_session st device_id now).1.sessions = some session :=
          get_latest_stored st device_id now session hnodup hkey hf
        refine flip_then_update_transitionOK st _ session.session_id
          session.provider session.device_id r tk now2 post session ?_ hstored hact
        rw [get_latest_fst]
        exact list_active_lazyFlipRel st now hnodup
    | some sid =>
      refine continue_fetch_transitionOK env st reg
        (get_session st sid now) _ task max_steps timeout_sec w post now2 ?_ ?_
      · exact get_transitionOK st sid now hdom
      · intro session hf hact r tk
        obtain ⟨hstate, hstored⟩ :=
          get_session_active_state st sid now session hf hact
        have hsid : session.session_id = sid :=
          hkey (sid, session) (mem_of_dictGet _ _ _ hstored)
        refine flip_then_update_transitionOK st _ session.session_id
          session.provider session.device_id r tk now2 post session ?_ ?_ hact
        · rw [hstate]
          exact lazyFlipRel_refl st
        · rw [hstate, hsid]
          exact hstored

/-- The property that a latest-session lookup only ever yields an active
session. -/
def ReturnsActive : Option Session → Prop
  | none => True
  | some s => s.status = "active"

/-- The property that an explicit continue of a fetched terminated session
is rejected with a structured failure and leaves the store as the fetch left
it. -/
def RejectedProperly (fetched : SMState × Option Session) (out : ExecOutput) :
    Prop :=
  match fetched.2 with
  | none => True
  | some session =>
    ¬ session.status = "active" →
      out.result.success = false ∧
      out.result.error = some ("Session is " ++ session.status) ∧
      out.state = fetched.1

/-- C6 amended: on a well-formed store (unique keys, statuses in
active/completed/expired, sessions keyed by their own id), every public
executor-level operation moves each stored session along an allowed edge —
no change, `active→completed`, `active→expired`, or `completed→expired`
(the lazy expiry flip on read applies to stale sessions regardless of
status) — and any session the operation creates appears as `active` (or
already `completed` when the creating call's first adapter step completes
the task). Moreover the normal continue path never resumes a terminated
session: a latest-session lookup only yields active sessions, and an
explicit continue of a terminated session id returns a structured rejection
without advancing the store. -/
theorem session_status_machine :
    (∀ st st', ExecStep st st' → KeysNodup st → StatusDomain st →
      KeyConsistent st → TransitionOK st st') ∧
    (∀ (st : SMState) (dev : Option String) (now : ℚ),
      ReturnsActive (get_latest_session st dev now).2) ∧
    (∀ (env : ExecEnv) (st : SMState) (reg : List Bool) (sid : String)
        (task device_id : Option String) (max_steps timeout_sec : Option ℤ)
        (now : ℚ) (w : WorkerRun) (post : PostEnv) (now2 : ℚ),
      env.tap_only_mode = false →
      RejectedProperly (get_session st sid now)
        (continue_session env st reg (some sid) task device_id max_steps
          timeout_sec now w post now2)) := by
  refine ⟨?_, ?_, ?_⟩
  · intro st st' hstep hnodup hdom hkey
    cases hstep with
    | execute env st reg task provider device_id max_steps timeout_sec
        stateless gen_id now w post now2 hfresh =>
      exact execute_transitionOK env st reg task provider device_id max_steps
        timeout_sec stateless gen_id now w post now2 hfresh
    | cont env st reg session_id task device_id max_steps timeout_sec now w
        post now2 =>
      exact continue_transitionOK env st reg session_id task device_id
        max_steps timeout_sec now w post now2 hnodup hdom hkey
    | getS st sid now => exact get_transitionOK st sid now hdom
    | listA st now =>
      exact lazyFlipRel_transitionOK _ _ (list_active_lazyFlipRel st now hnodup)
    | latest st dev now =>
      rw [get_latest_fst]
      exact lazyFlipRel_transitionOK _ _ (list_active_lazyFlipRel st now hnodup)
    | purge st now => exact transitionOK_filter st _ _ hnodup rfl
    | deleteS st sid =>
      by_cases h : dictGet sid st.sessions = none
      · unfold delete_session
        rw [if_pos h]
        exact transitionOK_refl st
      · unfold delete_session
        rw [if_neg h]
        exact transitionOK_filter st _ _ hnodup rfl
  · intro st dev now
    cases hl : (get_latest_session st dev now).2 with
    | none => trivial
    | some s =>
      show s.status = "active"
      exact get_latest_active st dev now s hl
  · intro env st reg sid task device_id max_steps timeout_sec now w post now2 htap
    unfold continue_session
    rw [if_neg (by simp [htap])]
    show RejectedProperly (get_session st sid now)
      (continue_fetch env reg (get_session st sid now)
        { success := false,
          error := some ("Session not found: " ++ sid),
          message := "Session " ++ sid ++ " not found or expired." }
        task max_steps timeout_sec w post now2)
    unfold RejectedProperly
    cases hf : (get_session st sid now).2 with
    | none => trivial
    | some session =>
      intro hna
      unfold continue_fetch
      rw [hf]
      dsimp only
      unfold continue_with
      rw [if_pos hna]
      exact ⟨rfl, rfl, rfl⟩

/-- C6 counterexample: `get_session` on a stale *completed* session flips it
to `expired` and persists the flip — a `completed→expired` transition, which
the claim's list (`active→completed`, `active→expired`, create→`active`)
does not allow. Concretely: a completed session last updated at time 0 in a
store with a 3600-second TTL, read at time 10000. -/
theorem session_status_counterexample :
    dictGet "c1" wStateC.sessions = some wCompleted ∧
    wCompleted.status = "completed" ∧
    dictGet "c1" (get_session wStateC "c1" 10000).1.sessions =
      some (expireFlip wCompleted) ∧
    (expireFlip wCompleted).status = "expired" ∧
    ¬ ClaimAllowedTransition wCompleted.status (expireFlip wCompleted).status := by
  refine ⟨rfl, rfl, ?_, rfl, ?_⟩
  · have hst : (get_session wStateC "c1" 10000).1 =
        mutateSession wStateC "c1" (expireFlip wCompleted) := by
      unfold get_session
      rw [show dictGet "c1" wStateC.sessions = some wCompleted from rfl]
      dsimp only
      rw [if_pos (by norm_num [wStateC, wCompleted])]
    rw [hst]
    exact dictGet_dictSet_self "c1" _ wStateC.sessions
  · intro hcl
    unfold ClaimAllowedTransition at hcl
    rcases hcl with h | ⟨h1, h2⟩
    · exact absurd h (by decide)
    · exact absurd h1 (by decide)

theorem session_status_machine_witness :
    TransitionOK wState (get_session wState "s1" 5).1 ∧
    ReturnsActive (get_latest_session wState none 5).2 ∧
    RejectedProperly (get_session wStateC "c1" 10)
      (continue_session wEnv wStateC [] (some "c1") none none none none 10
        wRun {} 11) :=
  ⟨session_status_machine.1 wState (get_session wState "s1" 5).1
      (ExecStep.getS wState "s1" 5) (by unfold KeysNodup; decide)
      (by unfold StatusDomain; decide) (by unfold KeyConsistent; decide),
    session_status_machine.2.1 wState none 5,
    session_status_machine.2.2 wEnv wStateC [] "c1" none none none none 10
      wRun {} 11 (by decide)⟩
